import Mathlib

/-!
The hivex session adapter of the guestfs daemon (`daemon/hivex.c`).

A shallow embedding of the `HAVE_HIVEX` half of `daemon/hivex.c`.

* The static `hive_h *h`, `errno` and everything the adapter does to the outside
  world (engine calls, allocator calls, replies) are an explicit `State`.
* The hivex library, `sysroot_path` and `malloc` are collaborators that the file only
  calls; they are oracles (`Env`) that may answer anything, depending on the whole
  history of the process and on `errno`.
* Pointers are naturals, `0` being `NULL`; `size_t` and `uint64_t` are naturals read
  modulo `2 ^ 64`; `int64_t` and `int` are integers.
-/

namespace Hivex

/-! ## Machine integers -/

/-- Conversion of an `int64_t` argument to `hive_node_h` / `hive_value_h` (`size_t`). -/
def toUInt64 (x : Int) : Nat := (x % 2 ^ 64).toNat

/-- Conversion of a `size_t` handle to `int64_t` (two's complement). -/
def toInt64 (n : Nat) : Int :=
  if n % 2 ^ 64 < 2 ^ 63 then ((n % 2 ^ 64 : Nat) : Int)
  else ((n % 2 ^ 64 : Nat) : Int) - 2 ^ 64

/-! ## Data model -/

/-- The record `hive_set_value` built by `do_hivex_node_set_value`. The field `t` has the
enumeration type `hive_type`, 32 bits wide and without negative constants: it holds a
value in `[0, 2 ^ 32)`. -/
structure hive_set_value where
  key : String
  t : Int
  len : Nat
  value : List Nat
deriving DecidableEq, Repr

/-- The wire list `guestfs_int_hivex_node_list`: a length field and a dense array of
`int64_t` node handles. Its declaration is in the generated protocol header, where the
length field is a 32-bit `u_int`: it holds a value in `[0, 2 ^ 32)`. -/
structure guestfs_int_hivex_node_list where
  guestfs_int_hivex_node_list_len : Nat
  guestfs_int_hivex_node_list_val : List Int
deriving DecidableEq, Repr

/-- The wire list `guestfs_int_hivex_value_list`, of the same shape: a 32-bit `u_int`
length field and a dense array of `int64_t` value handles. -/
structure guestfs_int_hivex_value_list where
  guestfs_int_hivex_value_list_len : Nat
  guestfs_int_hivex_value_list_val : List Int
deriving DecidableEq, Repr

/-- What the adapter does to the outside world, in order. -/
inductive Event where
  | hivex_open (path : String) (flags : Nat) (ret : Nat)
  | hivex_close (h : Nat)
  | hivex_root (h : Nat)
  | hivex_node_name (h : Nat) (node : Nat)
  | hivex_node_children (h : Nat) (node : Nat)
  | hivex_node_get_child (h : Nat) (node : Nat) (name : String)
  | hivex_node_parent (h : Nat) (node : Nat)
  | hivex_node_values (h : Nat) (node : Nat)
  | hivex_node_get_value (h : Nat) (node : Nat) (key : String)
  | hivex_value_key (h : Nat) (value : Nat)
  | hivex_value_type (h : Nat) (value : Nat)
  | hivex_value_value (h : Nat) (value : Nat)
  | hivex_commit (h : Nat) (filename : String) (flags : Nat)
  | hivex_node_add_child (h : Nat) (parent : Nat) (name : String)
  | hivex_node_delete_child (h : Nat) (node : Nat)
  | hivex_node_set_value (h : Nat) (node : Nat) (v : hive_set_value) (flags : Nat)
  | sysroot_path (filename : String)
  | malloc (size : Nat) (ret : Nat)
  | free_ptr (p : Nat)
  | free_array (r : List Nat)
  | free_string (buf : String)
  | reply_with_error (msg : String)
  | reply_with_perror (msg : String) (errno : Int)
deriving DecidableEq, Repr

/-- The process state the adapter reads and writes: the static `hive_h *h` (the Session
slot, `0` when empty), `errno`, and the history of outside-world events. -/
structure State where
  h : Nat
  errno : Int
  trace : List Event
deriving DecidableEq, Repr

/-- Constants of headers that are not part of this file: the optional-argument bits of
`guestfs_protocol.h`, the open flags of `hivex.h` and the sizes of the wire structures. -/
structure Consts where
  GUESTFS_HIVEX_OPEN_VERBOSE_BITMASK : Nat
  GUESTFS_HIVEX_OPEN_DEBUG_BITMASK : Nat
  GUESTFS_HIVEX_OPEN_WRITE_BITMASK : Nat
  HIVEX_OPEN_VERBOSE : Nat
  HIVEX_OPEN_DEBUG : Nat
  HIVEX_OPEN_WRITE : Nat
  sizeof_node_list : Nat
  sizeof_node : Nat
  sizeof_value_list : Nat
  sizeof_value : Nat

/-- The collaborators. Every oracle sees the history so far and the current `errno`, and
answers with its result and the `errno` it leaves behind. Pointer results are `0` or
`none` for `NULL`; handle results are read modulo `2 ^ 64`. -/
structure Env where
  sysroot_path : List Event → Int → String → Option String × Int
  malloc : List Event → Int → Nat → Nat × Int
  hivex_open : List Event → Int → String → Nat → Nat × Int
  hivex_close : List Event → Int → Nat → Int × Int
  hivex_root : List Event → Int → Nat → Nat × Int
  hivex_node_name : List Event → Int → Nat → Nat → Option String × Int
  hivex_node_children : List Event → Int → Nat → Nat → Option (List Nat) × Int
  hivex_node_get_child : List Event → Int → Nat → Nat → String → Nat × Int
  hivex_node_parent : List Event → Int → Nat → Nat → Nat × Int
  hivex_node_values : List Event → Int → Nat → Nat → Option (List Nat) × Int
  hivex_node_get_value : List Event → Int → Nat → Nat → String → Nat × Int
  hivex_value_key : List Event → Int → Nat → Nat → Option String × Int
  hivex_value_type : List Event → Int → Nat → Nat → (Int × Int) × Int
  hivex_value_value : List Event → Int → Nat → Nat → (Option (List Nat) × Nat) × Int
  hivex_commit : List Event → Int → Nat → String → Nat → Int × Int
  hivex_node_add_child : List Event → Int → Nat → Nat → String → Nat × Int
  hivex_node_delete_child : List Event → Int → Nat → Nat → Int × Int
  hivex_node_set_value : List Event → Int → Nat → Nat → hive_set_value → Nat → Int × Int

/-! ## Outside-world primitives -/

/-- A call to a collaborator: the event is recorded and `errno` becomes what the callee
left. -/
def call (s : State) (ev : Event) (errno' : Int) : State :=
  { s with errno := errno', trace := s.trace ++ [ev] }

/-- The daemon's `reply_with_error (msg)`. -/
def reply_with_error (msg : String) (s : State) : State :=
  { s with trace := s.trace ++ [Event.reply_with_error msg] }

/-- The daemon's `reply_with_perror (msg)`: an error reply that carries `errno`. -/
def reply_with_perror (msg : String) (s : State) : State :=
  { s with trace := s.trace ++ [Event.reply_with_perror msg s.errno] }

/-- Releasing memory: only recorded. -/
def free (ev : Event) (s : State) : State :=
  { s with trace := s.trace ++ [ev] }

/-- The reply of the macro `NEED_HANDLE` when `h` is `NULL`; `func` is `__func__`. -/
def NEED_HANDLE (func : String) (s : State) : State :=
  reply_with_error
    (func ++ ": you must call 'hivex-open' first to initialize the hivex handle") s

/-! ## The operations of `daemon/hivex.c` -/

/-- The destructor `hivex_finalize`: closes the handle on daemon exit. -/
def hivex_finalize (E : Env) (s : State) : State :=
  if s.h ≠ 0 then
    let s1 := call s (Event.hivex_close s.h) (E.hivex_close s.trace s.errno s.h).2
    { s1 with h := 0 }
  else s

/-- The flag word computed by `do_hivex_open` from the global `optargs_bitmask` and the
three optional arguments. -/
def open_flags (C : Consts) (optargs_bitmask : Nat) (verbose debug write : Int) : Nat :=
  let flags : Nat := 0
  let flags :=
    if optargs_bitmask &&& C.GUESTFS_HIVEX_OPEN_VERBOSE_BITMASK ≠ 0 then
      if verbose ≠ 0 then flags ||| C.HIVEX_OPEN_VERBOSE else flags
    else flags
  let flags :=
    if optargs_bitmask &&& C.GUESTFS_HIVEX_OPEN_DEBUG_BITMASK ≠ 0 then
      if debug ≠ 0 then flags ||| C.HIVEX_OPEN_DEBUG else flags
    else flags
  let flags :=
    if optargs_bitmask &&& C.GUESTFS_HIVEX_OPEN_WRITE_BITMASK ≠ 0 then
      if write ≠ 0 then flags ||| C.HIVEX_OPEN_WRITE else flags
    else flags
  flags

/-- The first statement of `do_hivex_open`: an open handle is closed and forgotten. -/
def open_release (E : Env) (s : State) : State :=
  if s.h ≠ 0 then
    let s1 := call s (Event.hivex_close s.h) (E.hivex_close s.trace s.errno s.h).2
    { s1 with h := 0 }
  else s

/-- The operation `do_hivex_open`; `optargs_bitmask` is the daemon's global of that
name. -/
def do_hivex_open (C : Consts) (E : Env) (optargs_bitmask : Nat) (filename : String)
    (verbose debug write : Int) (s : State) : Int × State :=
  let s1 := open_release E s
  let buf := E.sysroot_path s1.trace s1.errno filename
  let s2 := call s1 (Event.sysroot_path filename) buf.2
  match buf.1 with
  | none => (-1, reply_with_perror "malloc" s2)
  | some path =>
    let flags := open_flags C optargs_bitmask verbose debug write
    let r := E.hivex_open s2.trace s2.errno path flags
    let s3 : State := { call s2 (Event.hivex_open path flags r.1) r.2 with h := r.1 }
    if s3.h = 0 then
      (-1, free (Event.free_string path)
             (reply_with_perror ("hivex failed to open " ++ filename) s3))
    else (0, free (Event.free_string path) s3)

/-- The operation `do_hivex_close`. -/
def do_hivex_close (E : Env) (s : State) : Int × State :=
  if s.h = 0 then (-1, NEED_HANDLE "do_hivex_close" s)
  else
    let s1 := call s (Event.hivex_close s.h) (E.hivex_close s.trace s.errno s.h).2
    (0, { s1 with h := 0 })

/-- The operation `do_hivex_root`. -/
def do_hivex_root (E : Env) (s : State) : Int × State :=
  if s.h = 0 then (-1, NEED_HANDLE "do_hivex_root" s)
  else
    let x := E.hivex_root s.trace s.errno s.h
    let s1 := call s (Event.hivex_root s.h) x.2
    let r := toInt64 x.1
    if r = 0 then (-1, reply_with_perror "failed" s1)
    else (r, s1)

/-- The operation `do_hivex_node_name`. -/
def do_hivex_node_name (E : Env) (nodeh : Int) (s : State) : Option String × State :=
  if s.h = 0 then (none, NEED_HANDLE "do_hivex_node_name" s)
  else
    let x := E.hivex_node_name s.trace s.errno s.h (toUInt64 nodeh)
    let s1 := call s (Event.hivex_node_name s.h (toUInt64 nodeh)) x.2
    match x.1 with
    | none => (none, reply_with_perror "failed" s1)
    | some r => (some r, s1)

/-- The counting loop `for (i = 0; r[i] != 0; ++i) len++;` over the engine's array `r`.
Reading past the end of the array has no defined result (`none`). -/
def count_loop (r : List Nat) : Nat → Nat → Nat → Option Nat
  | 0, _, _ => none
  | fuel + 1, i, len =>
    match r[i]? with
    | none => none
    | some v => if v % 2 ^ 64 ≠ 0 then count_loop r fuel (i + 1) (len + 1) else some len

/-- The copying loop `for (i = 0; i < len; ++i) val[i] = r[i];`, the array `val` being
built from the front; `todo` is `len - i`. -/
def copy_loop (r : List Nat) : Nat → Nat → List Int → Option (List Int)
  | 0, _, val => some val
  | todo + 1, i, val =>
    match r[i]? with
    | none => none
    | some v => copy_loop r todo (i + 1) (val ++ [toInt64 v])

/-- A call of `malloc (size)`: the pointer and the state afterwards. -/
def malloc (E : Env) (size : Nat) (s : State) : Nat × State :=
  let x := E.malloc s.trace s.errno size
  (x.1, call s (Event.malloc size x.1) x.2)

/-- The operation `do_hivex_node_children`. The outer `none` is undefined behaviour (the
engine's array has no zero entry). The assignment of the `size_t` count to the `u_int`
length field keeps its low 32 bits. -/
def do_hivex_node_children (C : Consts) (E : Env) (nodeh : Int) (s : State) :
    Option (Option guestfs_int_hivex_node_list × State) :=
  if s.h = 0 then some (none, NEED_HANDLE "do_hivex_node_children" s)
  else
    let x := E.hivex_node_children s.trace s.errno s.h (toUInt64 nodeh)
    let s1 := call s (Event.hivex_node_children s.h (toUInt64 nodeh)) x.2
    match x.1 with
    | none => some (none, reply_with_perror "failed" s1)
    | some r =>
      match count_loop r (r.length + 1) 0 0 with
      | none => none
      | some len =>
        let ret := malloc E C.sizeof_node_list s1
        if ret.1 = 0 then
          some (none, free (Event.free_array r) (reply_with_perror "malloc" ret.2))
        else
          let val := malloc E (len * C.sizeof_node % 2 ^ 64) ret.2
          if val.1 = 0 then
            some (none, free (Event.free_array r)
                          (free (Event.free_ptr ret.1) (reply_with_perror "malloc" val.2)))
          else
            match copy_loop r len 0 [] with
            | none => none
            | some l => some (some ⟨len % 2 ^ 32, l⟩, free (Event.free_array r) val.2)

/-- The operation `do_hivex_node_get_child`. -/
def do_hivex_node_get_child (E : Env) (nodeh : Int) (name : String) (s : State) :
    Int × State :=
  if s.h = 0 then (-1, NEED_HANDLE "do_hivex_node_get_child" s)
  else
    let s0 := { s with errno := 0 }
    let x := E.hivex_node_get_child s0.trace s0.errno s0.h (toUInt64 nodeh) name
    let s1 := call s0 (Event.hivex_node_get_child s0.h (toUInt64 nodeh) name) x.2
    let r := toInt64 x.1
    if r = 0 ∧ s1.errno ≠ 0 then (-1, reply_with_perror "failed" s1)
    else (r, s1)

/-- The operation `do_hivex_node_parent`. -/
def do_hivex_node_parent (E : Env) (nodeh : Int) (s : State) : Int × State :=
  if s.h = 0 then (-1, NEED_HANDLE "do_hivex_node_parent" s)
  else
    let x := E.hivex_node_parent s.trace s.errno s.h (toUInt64 nodeh)
    let s1 := call s (Event.hivex_node_parent s.h (toUInt64 nodeh)) x.2
    let r := toInt64 x.1
    if r = 0 then (-1, reply_with_perror "failed" s1)
    else (r, s1)

/-- The operation `do_hivex_node_values`. The outer `none` is undefined behaviour (the
engine's array has no zero entry). The assignment of the `size_t` count to the `u_int`
length field keeps its low 32 bits. -/
def do_hivex_node_values (C : Consts) (E : Env) (nodeh : Int) (s : State) :
    Option (Option guestfs_int_hivex_value_list × State) :=
  if s.h = 0 then some (none, NEED_HANDLE "do_hivex_node_values" s)
  else
    let x := E.hivex_node_values s.trace s.errno s.h (toUInt64 nodeh)
    let s1 := call s (Event.hivex_node_values s.h (toUInt64 nodeh)) x.2
    match x.1 with
    | none => some (none, reply_with_perror "failed" s1)
    | some r =>
      match count_loop r (r.length + 1) 0 0 with
      | none => none
      | some len =>
        let ret := malloc E C.sizeof_value_list s1
        if ret.1 = 0 then
          some (none, free (Event.free_array r) (reply_with_perror "malloc" ret.2))
        else
          let val := malloc E (len * C.sizeof_value % 2 ^ 64) ret.2
          if val.1 = 0 then
            some (none, free (Event.free_array r)
                          (free (Event.free_ptr ret.1) (reply_with_perror "malloc" val.2)))
          else
            match copy_loop r len 0 [] with
            | none => none
            | some l => some (some ⟨len % 2 ^ 32, l⟩, free (Event.free_array r) val.2)

/-- The operation `do_hivex_node_get_value`. -/
def do_hivex_node_get_value (E : Env) (nodeh : Int) (key : String) (s : State) :
    Int × State :=
  if s.h = 0 then (-1, NEED_HANDLE "do_hivex_node_get_value" s)
  else
    let s0 := { s with errno := 0 }
    let x := E.hivex_node_get_value s0.trace s0.errno s0.h (toUInt64 nodeh) key
    let s1 := call s0 (Event.hivex_node_get_value s0.h (toUInt64 nodeh) key) x.2
    let r := toInt64 x.1
    if r = 0 ∧ s1.errno ≠ 0 then (-1, reply_with_perror "failed" s1)
    else (r, s1)

/-- The operation `do_hivex_value_key`. -/
def do_hivex_value_key (E : Env) (valueh : Int) (s : State) : Option String × State :=
  if s.h = 0 then (none, NEED_HANDLE "do_hivex_value_key" s)
  else
    let x := E.hivex_value_key s.trace s.errno s.h (toUInt64 valueh)
    let s1 := call s (Event.hivex_value_key s.h (toUInt64 valueh)) x.2
    match x.1 with
    | none => (none, reply_with_perror "failed" s1)
    | some r => (some r, s1)

/-- The operation `do_hivex_value_type`; the engine answers with its status and the type
it stored in `r`. -/
def do_hivex_value_type (E : Env) (valueh : Int) (s : State) : Int × State :=
  if s.h = 0 then (-1, NEED_HANDLE "do_hivex_value_type" s)
  else
    let x := E.hivex_value_type s.trace s.errno s.h (toUInt64 valueh)
    let s1 := call s (Event.hivex_value_type s.h (toUInt64 valueh)) x.2
    if x.1.1 = -1 then (-1, reply_with_perror "failed" s1)
    else (x.1.2, s1)

/-- The operation `do_hivex_value_value`: the returned buffer and what was stored in
`*size_r` (`none` when nothing was stored). -/
def do_hivex_value_value (E : Env) (valueh : Int) (s : State) :
    (Option (List Nat) × Option Nat) × State :=
  if s.h = 0 then ((none, none), NEED_HANDLE "do_hivex_value_value" s)
  else
    let x := E.hivex_value_value s.trace s.errno s.h (toUInt64 valueh)
    let s1 := call s (Event.hivex_value_value s.h (toUInt64 valueh)) x.2
    match x.1.1 with
    | none => ((none, none), reply_with_perror "failed" s1)
    | some r => ((some r, some x.1.2), s1)

/-- The operation `do_hivex_commit`. -/
def do_hivex_commit (E : Env) (filename : String) (s : State) : Int × State :=
  if s.h = 0 then (-1, NEED_HANDLE "do_hivex_commit" s)
  else
    let x := E.hivex_commit s.trace s.errno s.h filename 0
    let s1 := call s (Event.hivex_commit s.h filename 0) x.2
    if x.1 = -1 then (-1, reply_with_perror "failed" s1)
    else (0, s1)

/-- The operation `do_hivex_node_add_child`. -/
def do_hivex_node_add_child (E : Env) (parent : Int) (name : String) (s : State) :
    Int × State :=
  if s.h = 0 then (-1, NEED_HANDLE "do_hivex_node_add_child" s)
  else
    let x := E.hivex_node_add_child s.trace s.errno s.h (toUInt64 parent) name
    let s1 := call s (Event.hivex_node_add_child s.h (toUInt64 parent) name) x.2
    let r := toInt64 x.1
    if r = 0 then (-1, reply_with_perror "failed" s1)
    else (r, s1)

/-- The operation `do_hivex_node_delete_child`. -/
def do_hivex_node_delete_child (E : Env) (nodeh : Int) (s : State) : Int × State :=
  if s.h = 0 then (-1, NEED_HANDLE "do_hivex_node_delete_child" s)
  else
    let x := E.hivex_node_delete_child s.trace s.errno s.h (toUInt64 nodeh)
    let s1 := call s (Event.hivex_node_delete_child s.h (toUInt64 nodeh)) x.2
    if x.1 = -1 then (-1, reply_with_perror "failed" s1)
    else (0, s1)

/-- The operation `do_hivex_node_set_value`. The initialiser `.t = t` converts the
`int64_t` argument to the 32-bit enumeration `hive_type`. -/
def do_hivex_node_set_value (E : Env) (nodeh : Int) (key : String) (t : Int)
    (val : List Nat) (val_size : Nat) (s : State) : Int × State :=
  let v : hive_set_value := { key := key, t := t % 2 ^ 32, len := val_size, value := val }
  if s.h = 0 then (-1, NEED_HANDLE "do_hivex_node_set_value" s)
  else
    let x := E.hivex_node_set_value s.trace s.errno s.h (toUInt64 nodeh) v 0
    let s1 := call s (Event.hivex_node_set_value s.h (toUInt64 nodeh) v 0) x.2
    if x.1 = -1 then (-1, reply_with_perror "failed" s1)
    else (0, s1)

/-- The answer the path resolver gives to the call `sysroot_path (filename)` made by
`do_hivex_open` from state `s` (the call comes after the release of the old handle). -/
def open_resolved (E : Env) (filename : String) (s : State) : Option String × Int :=
  E.sysroot_path (open_release E s).trace (open_release E s).errno filename

/-- The answer the engine gives to the call `hivex_open (buf, flags)` made by
`do_hivex_open` from state `s` when the path resolver returned `path`. -/
def open_answer (C : Consts) (E : Env) (optargs_bitmask : Nat) (filename : String)
    (verbose debug write : Int) (s : State) (path : String) : Nat × Int :=
  E.hivex_open ((open_release E s).trace ++ [Event.sysroot_path filename])
    (open_resolved E filename s).2 path (open_flags C optargs_bitmask verbose debug write)

/-! ## The operation surface -/

/-- A request: one of the sixteen operations with its arguments. For `hivex_open` the
first argument is the value of the global `optargs_bitmask` at the call. -/
inductive Op where
  | hivex_open (optargs_bitmask : Nat) (filename : String) (verbose debug write : Int)
  | hivex_close
  | hivex_root
  | hivex_node_name (nodeh : Int)
  | hivex_node_children (nodeh : Int)
  | hivex_node_get_child (nodeh : Int) (name : String)
  | hivex_node_parent (nodeh : Int)
  | hivex_node_values (nodeh : Int)
  | hivex_node_get_value (nodeh : Int) (key : String)
  | hivex_value_key (valueh : Int)
  | hivex_value_type (valueh : Int)
  | hivex_value_value (valueh : Int)
  | hivex_commit (filename : String)
  | hivex_node_add_child (parent : Int) (name : String)
  | hivex_node_delete_child (nodeh : Int)
  | hivex_node_set_value (nodeh : Int) (key : String) (t : Int) (val : List Nat)
      (val_size : Nat)
deriving DecidableEq, Repr

/-- What an operation hands back, by C return type. -/
inductive Ret where
  | int (r : Int)
  | int64 (r : Int)
  | string (r : Option String)
  | node_list (r : Option guestfs_int_hivex_node_list)
  | value_list (r : Option guestfs_int_hivex_value_list)
  | buffer (r : Option (List Nat)) (size_r : Option Nat)
deriving DecidableEq, Repr

/-- Every operation but `hivex_open` starts with `NEED_HANDLE`. -/
def Op.gated : Op → Bool
  | Op.hivex_open _ _ _ _ _ => false
  | _ => true

/-- The `__func__` of the C function behind an operation. -/
def Op.func : Op → String
  | Op.hivex_open _ _ _ _ _ => "do_hivex_open"
  | Op.hivex_close => "do_hivex_close"
  | Op.hivex_root => "do_hivex_root"
  | Op.hivex_node_name _ => "do_hivex_node_name"
  | Op.hivex_node_children _ => "do_hivex_node_children"
  | Op.hivex_node_get_child _ _ => "do_hivex_node_get_child"
  | Op.hivex_node_parent _ => "do_hivex_node_parent"
  | Op.hivex_node_values _ => "do_hivex_node_values"
  | Op.hivex_node_get_value _ _ => "do_hivex_node_get_value"
  | Op.hivex_value_key _ => "do_hivex_value_key"
  | Op.hivex_value_type _ => "do_hivex_value_type"
  | Op.hivex_value_value _ => "do_hivex_value_value"
  | Op.hivex_commit _ => "do_hivex_commit"
  | Op.hivex_node_add_child _ _ => "do_hivex_node_add_child"
  | Op.hivex_node_delete_child _ => "do_hivex_node_delete_child"
  | Op.hivex_node_set_value _ _ _ _ _ => "do_hivex_node_set_value"

/-- The error value of an operation: `-1` for the integer-valued ones, `NULL` for the
pointer-valued ones (the argument of `NEED_HANDLE` in each function). -/
def Op.errcode : Op → Ret
  | Op.hivex_open _ _ _ _ _ => Ret.int (-1)
  | Op.hivex_close => Ret.int (-1)
  | Op.hivex_root => Ret.int64 (-1)
  | Op.hivex_node_name _ => Ret.string none
  | Op.hivex_node_children _ => Ret.node_list none
  | Op.hivex_node_get_child _ _ => Ret.int64 (-1)
  | Op.hivex_node_parent _ => Ret.int64 (-1)
  | Op.hivex_node_values _ => Ret.value_list none
  | Op.hivex_node_get_value _ _ => Ret.int64 (-1)
  | Op.hivex_value_key _ => Ret.string none
  | Op.hivex_value_type _ => Ret.int64 (-1)
  | Op.hivex_value_value _ => Ret.buffer none none
  | Op.hivex_commit _ => Ret.int (-1)
  | Op.hivex_node_add_child _ _ => Ret.int64 (-1)
  | Op.hivex_node_delete_child _ => Ret.int (-1)
  | Op.hivex_node_set_value _ _ _ _ _ => Ret.int (-1)

/-- One request served: the C function of the operation is run on the state. `none` is
undefined behaviour (only the two list operations can reach it). -/
def dispatch (C : Consts) (E : Env) (op : Op) (s : State) : Option (Ret × State) :=
  match op with
  | Op.hivex_open m f v d w =>
    let x := do_hivex_open C E m f v d w s
    some (Ret.int x.1, x.2)
  | Op.hivex_close => let x := do_hivex_close E s; some (Ret.int x.1, x.2)
  | Op.hivex_root => let x := do_hivex_root E s; some (Ret.int64 x.1, x.2)
  | Op.hivex_node_name n => let x := do_hivex_node_name E n s; some (Ret.string x.1, x.2)
  | Op.hivex_node_children n =>
    (do_hivex_node_children C E n s).map (fun x => (Ret.node_list x.1, x.2))
  | Op.hivex_node_get_child n name =>
    let x := do_hivex_node_get_child E n name s
    some (Ret.int64 x.1, x.2)
  | Op.hivex_node_parent n => let x := do_hivex_node_parent E n s; some (Ret.int64 x.1, x.2)
  | Op.hivex_node_values n =>
    (do_hivex_node_values C E n s).map (fun x => (Ret.value_list x.1, x.2))
  | Op.hivex_node_get_value n key =>
    let x := do_hivex_node_get_value E n key s
    some (Ret.int64 x.1, x.2)
  | Op.hivex_value_key v => let x := do_hivex_value_key E v s; some (Ret.string x.1, x.2)
  | Op.hivex_value_type v => let x := do_hivex_value_type E v s; some (Ret.int64 x.1, x.2)
  | Op.hivex_value_value v =>
    let x := do_hivex_value_value E v s
    some (Ret.buffer x.1.1 x.1.2, x.2)
  | Op.hivex_commit f => let x := do_hivex_commit E f s; some (Ret.int x.1, x.2)
  | Op.hivex_node_add_child n name =>
    let x := do_hivex_node_add_child E n name s
    some (Ret.int64 x.1, x.2)
  | Op.hivex_node_delete_child n =>
    let x := do_hivex_node_delete_child E n s
    some (Ret.int x.1, x.2)
  | Op.hivex_node_set_value n key t val sz =>
    let x := do_hivex_node_set_value E n key t val sz s
    some (Ret.int x.1, x.2)

/-- A sequence of requests served one after the other. -/
def run (C : Consts) (E : Env) : List Op → State → Option State
  | [], s => some s
  | op :: ops, s =>
    match dispatch C E op s with
    | none => none
    | some x => run C E ops x.2

/-! ## Observations on the history -/

/-- Calls into the hivex library. -/
def Event.is_engine_call : Event → Bool
  | Event.sysroot_path _ => false
  | Event.malloc _ _ => false
  | Event.free_ptr _ => false
  | Event.free_array _ => false
  | Event.free_string _ => false
  | Event.reply_with_error _ => false
  | Event.reply_with_perror _ _ => false
  | _ => true

/-- Error replies sent to the client. -/
def Event.is_reply : Event → Bool
  | Event.reply_with_error _ => true
  | Event.reply_with_perror _ _ => true
  | _ => false

/-- The engine calls of a history, in order. -/
def engine_calls (tr : List Event) : List Event := tr.filter Event.is_engine_call

/-- The error replies of a history, in order. -/
def replies (tr : List Event) : List Event := tr.filter Event.is_reply

/-- How one event changes the engine handles that are open: a successful `hivex_open`
adds the handle it returned, `hivex_close` removes its argument. -/
def live_step (live : List Nat) : Event → List Nat
  | Event.hivex_open _ _ ret => if ret = 0 then live else live ++ [ret]
  | Event.hivex_close h => live.erase h
  | _ => live

/-- The engine handles opened and not yet closed after a history. -/
def live_handles (tr : List Event) : List Nat := tr.foldl live_step []

/-- The content of the Session slot as a list: nothing for `NULL`. -/
def slot (h : Nat) : List Nat := if h = 0 then [] else [h]

/-- The Session invariant: the engine handles still open are exactly the content of the
Session slot. -/
def session_inv (s : State) : Prop := live_handles s.trace = slot s.h

instance (s : State) : Decidable (session_inv s) := by
  unfold session_inv
  infer_instance

/-- An engine whose arrays always carry the zero sentinel. -/
def Env.sentinel_terminated (E : Env) : Prop :=
  (∀ tr e h n r, (E.hivex_node_children tr e h n).1 = some r → ∃ v ∈ r, v % 2 ^ 64 = 0) ∧
  (∀ tr e h n r, (E.hivex_node_values tr e h n).1 = some r → ∃ v ∈ r, v % 2 ^ 64 = 0)

/-- The wire list (`len`, `val`) carries the first `n` entries of the engine array `r`:
the 32-bit length field is `n` modulo `2 ^ 32` (so it is `n` when `n < 2 ^ 32`), the
array has `n` elements, element `i` is entry `i` of `r` converted to `int64_t` (read back
as `size_t` it is the entry again), and no element is zero. -/
def marshalled (r : List Nat) (n : Nat) (len : Nat) (val : List Int) : Prop :=
  len = n % 2 ^ 32 ∧ (n < 2 ^ 32 → len = n) ∧ val.length = n ∧
  (∀ i, i < n → r[i]? ≠ none ∧ val[i]? = (r[i]?).map toInt64 ∧
    (val[i]?).map toUInt64 = (r[i]?).map (fun v => v % 2 ^ 64)) ∧
  (0 : Int) ∉ val

instance (r : List Nat) (n len : Nat) (val : List Int) : Decidable (marshalled r n len val) := by
  unfold marshalled
  infer_instance

/-- The outcome of a lookup (`node-get-child`, `node-get-value`) that started in state
`s`, made the engine call `ev` and got the answer `x` (handle and `errno` afterwards),
`r` being what the operation returned and the state it left: the failure is reported
(return value -1 and one error reply) exactly when the handle is 0 and `errno` is set;
handle 0 with `errno` clear is the success value 0 without a reply; a non-zero handle is
returned as it is, without a reply. -/
def lookup_outcome (s : State) (ev : Event) (x : Nat × Int) (r : Int × State) : Prop :=
  r.2.h = s.h ∧
  engine_calls r.2.trace = engine_calls s.trace ++ [ev] ∧
  ((r.1 = -1 ∧ replies r.2.trace = replies s.trace ++ [Event.reply_with_perror "failed" x.2])
    ↔ (x.1 % 2 ^ 64 = 0 ∧ x.2 ≠ 0)) ∧
  (replies r.2.trace ≠ replies s.trace ↔ (x.1 % 2 ^ 64 = 0 ∧ x.2 ≠ 0)) ∧
  (x.1 % 2 ^ 64 = 0 → x.2 = 0 → r.1 = 0 ∧ replies r.2.trace = replies s.trace) ∧
  (x.1 % 2 ^ 64 ≠ 0 →
    r.1 = toInt64 x.1 ∧ toUInt64 r.1 = x.1 % 2 ^ 64 ∧ replies r.2.trace = replies s.trace)

instance (s : State) (ev : Event) (x : Nat × Int) (r : Int × State) :
    Decidable (lookup_outcome s ev x r) := by
  unfold lookup_outcome
  infer_instance

/-- The outcome of a status-returning mutation (`node-delete-child`, `node-set-value`)
that started in state `s`, made the engine call `ev` and got the answer `x` (status and
`errno` afterwards): status -1 is reported as a failure (return value -1 and one error
reply), every other status is a success (return value 0 and no error reply). -/
def status_outcome (s : State) (ev : Event) (x : Int × Int) (r : Int × State) : Prop :=
  r.2.h = s.h ∧
  engine_calls r.2.trace = engine_calls s.trace ++ [ev] ∧
  (x.1 = -1 →
    r.1 = -1 ∧ replies r.2.trace = replies s.trace ++ [Event.reply_with_perror "failed" x.2]) ∧
  (x.1 ≠ -1 → r.1 = 0 ∧ replies r.2.trace = replies s.trace) ∧
  (r.1 = -1 ↔ x.1 = -1) ∧ (r.1 = 0 ↔ x.1 ≠ -1) ∧
  (replies r.2.trace ≠ replies s.trace ↔ x.1 = -1)

instance (s : State) (ev : Event) (x : Int × Int) (r : Int × State) :
    Decidable (status_outcome s ev x r) := by
  unfold status_outcome
  infer_instance

/-- The outcome of a handle-returning operation that started in state `s` and got the
answer `x` from the engine: an error reply always comes with the return value -1; unless
the engine's handle is `2 ^ 64 - 1`, the return value is -1 exactly when an error reply
was sent; the handle `2 ^ 64 - 1` is returned as -1 without an error reply. -/
def handle_outcome (s : State) (x : Nat × Int) (r : Int × State) : Prop :=
  (replies r.2.trace ≠ replies s.trace → r.1 = -1) ∧
  (x.1 % 2 ^ 64 ≠ 2 ^ 64 - 1 → (r.1 = -1 ↔ replies r.2.trace ≠ replies s.trace)) ∧
  (x.1 % 2 ^ 64 = 2 ^ 64 - 1 → r.1 = -1 ∧ replies r.2.trace = replies s.trace)

instance (s : State) (x : Nat × Int) (r : Int × State) :
    Decidable (handle_outcome s x r) := by
  unfold handle_outcome
  infer_instance

/-! ## Concrete collaborators for evaluation -/

/-- The constants of the real headers: bits 0, 1, 2 for verbose, debug, write on both
sides, a 16-byte list header and 8-byte elements. -/
def realConsts : Consts :=
  { GUESTFS_HIVEX_OPEN_VERBOSE_BITMASK := 1
    GUESTFS_HIVEX_OPEN_DEBUG_BITMASK := 2
    GUESTFS_HIVEX_OPEN_WRITE_BITMASK := 4
    HIVEX_OPEN_VERBOSE := 1
    HIVEX_OPEN_DEBUG := 2
    HIVEX_OPEN_WRITE := 4
    sizeof_node_list := 16
    sizeof_node := 8
    sizeof_value_list := 16
    sizeof_value := 8 }

/-- A scripted environment: every collaborator gives a fixed answer. `path` is what the
path resolver returns, `mem` what `malloc` returns, `hnd` the pointer of `hivex_open`,
`node` every node or value handle, `arr` every handle array, `status` every integer
status, `err` the `errno` every engine call leaves; a failing resolver or allocator
leaves `errno` 12. -/
def scripted (path : Option String) (mem hnd node : Nat) (arr : Option (List Nat))
    (status : Int) (err : Int) : Env :=
  { sysroot_path := fun _ e _ => (path, if path.isNone then 12 else e)
    malloc := fun _ e _ => (mem, if mem = 0 then 12 else e)
    hivex_open := fun _ _ _ _ => (hnd, err)
    hivex_close := fun _ _ _ => (0, err)
    hivex_root := fun _ _ _ => (node, err)
    hivex_node_name := fun _ _ _ _ => (some "ControlSet001", err)
    hivex_node_children := fun _ _ _ _ => (arr, err)
    hivex_node_get_child := fun _ _ _ _ _ => (node, err)
    hivex_node_parent := fun _ _ _ _ => (node, err)
    hivex_node_values := fun _ _ _ _ => (arr, err)
    hivex_node_get_value := fun _ _ _ _ _ => (node, err)
    hivex_value_key := fun _ _ _ _ => (some "Data", err)
    hivex_value_type := fun _ _ _ _ => ((status, 1), err)
    hivex_value_value := fun _ _ _ _ => ((some [104, 105], 2), err)
    hivex_commit := fun _ _ _ _ _ => (status, err)
    hivex_node_add_child := fun _ _ _ _ _ => (node, err)
    hivex_node_delete_child := fun _ _ _ _ => (status, err)
    hivex_node_set_value := fun _ _ _ _ _ _ => (status, err) }

/-- A healthy engine and an allocator that answers a zero-size request with `NULL`, as
the C standard allows; every handle array of the engine is `[0]`, the empty one. -/
def zeroSizeNullEnv : Env :=
  { scripted (some "/sysroot/SYSTEM") 4096 7 32 (some [0]) 0 0 with
    malloc := fun _ e size => if size = 0 then (0, 12) else (4096, e) }

/-- An array of `2 ^ 32` handles, all equal to 1. -/
def wideArray : List Nat := List.replicate (2 ^ 32) 1

/-- A healthy engine and allocator; every handle array of the engine is `wideArray`
followed by the sentinel. -/
def wideArrayEnv : Env :=
  scripted (some "/sysroot/SYSTEM") 4096 7 32 (some (wideArray ++ [0])) 0 0

/-- A healthy engine and allocator. -/
def goodEnv : Env := scripted (some "/sysroot/SYSTEM") 4096 7 32 (some [32, 64, 0]) 0 0

end Hivex

namespace Hivex

/-! ## Basic facts -/

theorem toUInt64_toInt64 (v : Nat) : toUInt64 (toInt64 v) = v % 2 ^ 64 := by
  unfold toUInt64 toInt64
  split <;> omega

theorem toInt64_eq_zero_iff (v : Nat) : toInt64 v = 0 ↔ v % 2 ^ 64 = 0 := by
  unfold toInt64
  split <;> omega

theorem toInt64_eq_neg_one_iff (v : Nat) : toInt64 v = -1 ↔ v % 2 ^ 64 = 2 ^ 64 - 1 := by
  unfold toInt64
  split <;> omega

theorem engine_calls_append (a b : List Event) :
    engine_calls (a ++ b) = engine_calls a ++ engine_calls b := by
  simp [engine_calls]

theorem replies_append (a b : List Event) : replies (a ++ b) = replies a ++ replies b := by
  simp [replies]

theorem live_handles_append (a b : List Event) :
    live_handles (a ++ b) = b.foldl live_step (live_handles a) := by
  simp [live_handles]

/-- With an empty Session slot every gated operation only sends the `NEED_HANDLE`
reply. -/
theorem dispatch_closed (C : Consts) (E : Env) (op : Op) (s : State)
    (hg : op.gated = true) (hs : s.h = 0) :
    dispatch C E op s = some (op.errcode, NEED_HANDLE op.func s) := by
  cases op <;>
    simp_all [dispatch, Op.gated, Op.errcode, Op.func, do_hivex_close, do_hivex_root,
      do_hivex_node_name, do_hivex_node_children, do_hivex_node_get_child,
      do_hivex_node_parent, do_hivex_node_values, do_hivex_node_get_value,
      do_hivex_value_key, do_hivex_value_type, do_hivex_value_value, do_hivex_commit,
      do_hivex_node_add_child, do_hivex_node_delete_child, do_hivex_node_set_value]

theorem NEED_HANDLE_h (f : String) (s : State) : (NEED_HANDLE f s).h = s.h := rfl

theorem NEED_HANDLE_errno (f : String) (s : State) : (NEED_HANDLE f s).errno = s.errno := rfl

theorem NEED_HANDLE_trace (f : String) (s : State) :
    (NEED_HANDLE f s).trace = s.trace ++ [Event.reply_with_error
      (f ++ ": you must call 'hivex-open' first to initialize the hivex handle")] := rfl

/-! ## Frame facts: what each primitive does to the state -/

@[simp] theorem call_h (s : State) (ev : Event) (e : Int) : (call s ev e).h = s.h := rfl

@[simp] theorem call_errno (s : State) (ev : Event) (e : Int) : (call s ev e).errno = e := rfl

@[simp] theorem call_trace (s : State) (ev : Event) (e : Int) :
    (call s ev e).trace = s.trace ++ [ev] := rfl

@[simp] theorem reply_with_perror_h (m : String) (s : State) :
    (reply_with_perror m s).h = s.h := rfl

@[simp] theorem reply_with_perror_errno (m : String) (s : State) :
    (reply_with_perror m s).errno = s.errno := rfl

@[simp] theorem reply_with_perror_trace (m : String) (s : State) :
    (reply_with_perror m s).trace = s.trace ++ [Event.reply_with_perror m s.errno] := rfl

@[simp] theorem free_h (ev : Event) (s : State) : (free ev s).h = s.h := rfl

@[simp] theorem free_errno (ev : Event) (s : State) : (free ev s).errno = s.errno := rfl

@[simp] theorem free_trace (ev : Event) (s : State) :
    (free ev s).trace = s.trace ++ [ev] := rfl

@[simp] theorem malloc_h (E : Env) (n : Nat) (s : State) : (malloc E n s).2.h = s.h := rfl

@[simp] theorem malloc_trace (E : Env) (n : Nat) (s : State) :
    (malloc E n s).2.trace = s.trace ++ [Event.malloc n (malloc E n s).1] := rfl

theorem live_handles_snoc (tr : List Event) (e : Event) :
    live_handles (tr ++ [e]) = live_step (live_handles tr) e := by
  simp [live_handles]

theorem open_release_h (E : Env) (s : State) : (open_release E s).h = 0 := by
  unfold open_release
  split
  · rfl
  · rename_i h; simpa using h

theorem open_release_trace (E : Env) (s : State) :
    (open_release E s).trace =
      if s.h = 0 then s.trace else s.trace ++ [Event.hivex_close s.h] := by
  unfold open_release
  by_cases h : s.h = 0 <;> simp [h]

/-! ## The two loops of the list operations -/

/-- The counting loop stops at the first zero entry: if from index `i` on the next `k`
entries are non-zero and entry `i + k` is zero, the loop adds `k` to `len`. -/
theorem count_loop_first_zero (r : List Nat) (k : Nat) :
    ∀ fuel i len : Nat, k < fuel →
      (∃ z, r[i + k]? = some z ∧ z % 2 ^ 64 = 0) →
      (∀ j, j < k → ∀ v, r[i + j]? = some v → v % 2 ^ 64 ≠ 0) →
      count_loop r fuel i len = some (len + k) := by
  induction k with
  | zero =>
    intro fuel i len hf hz _
    obtain ⟨z, hz1, hz2⟩ := hz
    cases fuel with
    | zero => omega
    | succ fuel =>
      simp only [Nat.add_zero] at hz1
      simp only [count_loop, hz1]
      rw [if_neg (not_not.mpr hz2)]
      rfl
  | succ k ih =>
    intro fuel i len hf hz hnz
    obtain ⟨z, hz1, hz2⟩ := hz
    cases fuel with
    | zero => omega
    | succ fuel =>
      have hlt : i + (k + 1) < r.length := by
        rcases List.getElem?_eq_some_iff.mp hz1 with ⟨h, _⟩
        exact h
      have hi : i < r.length := by omega
      have hv : r[i]? = some r[i] := List.getElem?_eq_getElem hi
      have hne : r[i] % 2 ^ 64 ≠ 0 := hnz 0 (by omega) r[i] hv
      have hrec := ih fuel (i + 1) (len + 1) (by omega)
        ⟨z, by rw [← hz1]; congr 1; omega, hz2⟩
        (fun j hj v hjv => hnz (j + 1) (by omega) v (by rw [← hjv]; congr 1; omega))
      simp only [count_loop, hv]
      rw [if_pos hne, hrec]
      congr 1
      omega

/-- The copying loop copies `todo` entries starting at index `i`, converting each to
`int64_t`, provided the array has that many entries. -/
theorem copy_loop_eq (r : List Nat) (todo : Nat) :
    ∀ (i : Nat) (val : List Int), i + todo ≤ r.length →
      copy_loop r todo i val = some (val ++ ((r.drop i).take todo).map toInt64) := by
  induction todo with
  | zero => intro i val _; simp [copy_loop]
  | succ todo ih =>
    intro i val h
    have hi : i < r.length := by omega
    have hv : r[i]? = some r[i] := List.getElem?_eq_getElem hi
    simp only [copy_loop, hv]
    rw [ih (i + 1) _ (by omega), List.drop_eq_getElem_cons hi]
    simp only [List.take_succ_cons, List.map_cons, List.append_assoc, List.singleton_append]

/-- An array with a zero entry has a first zero entry. -/
theorem exists_first_zero (r : List Nat) (h : ∃ v ∈ r, v % 2 ^ 64 = 0) :
    ∃ n, n < r.length ∧ (∃ z, r[n]? = some z ∧ z % 2 ^ 64 = 0) ∧
      ∀ j, j < n → ∀ v, r[j]? = some v → v % 2 ^ 64 ≠ 0 := by
  classical
  have hex : ∃ n : Nat, ∃ z : Nat, r[n]? = some z ∧ z % 2 ^ 64 = 0 := by
    obtain ⟨v, hv, hz⟩ := h
    obtain ⟨n, hn, hnv⟩ := List.getElem_of_mem hv
    refine ⟨n, v, ?_, hz⟩
    rw [List.getElem?_eq_getElem hn, hnv]
  refine ⟨Nat.find hex, ?_, Nat.find_spec hex, ?_⟩
  · obtain ⟨z, hz, _⟩ := Nat.find_spec hex
    exact (List.getElem?_eq_some_iff.mp hz).1
  · intro j hj v hv hz
    exact Nat.find_min hex hj ⟨v, hv, hz⟩

/-! ## The precondition gate -/

/-- Claim C1. Every operation other than open, whatever its arguments, called while the
Session slot is empty, returns its error value, sends exactly one error reply (the name
of the C function followed by the instruction to call 'hivex-open' first) and nothing
else happens: no engine call is made, the slot stays empty. -/
theorem gate_rejects_without_session (C : Consts) (E : Env) (op : Op) (s : State)
    (hg : op.gated = true) (hs : s.h = 0) :
    ∃ s', dispatch C E op s = some (op.errcode, s') ∧
      s'.trace = s.trace ++ [Event.reply_with_error
        (op.func ++ ": you must call 'hivex-open' first to initialize the hivex handle")] ∧
      replies s'.trace = replies s.trace ++ [Event.reply_with_error
        (op.func ++ ": you must call 'hivex-open' first to initialize the hivex handle")] ∧
      engine_calls s'.trace = engine_calls s.trace ∧
      s'.h = 0 ∧ s'.errno = s.errno := by
  refine ⟨NEED_HANDLE op.func s, dispatch_closed C E op s hg hs, NEED_HANDLE_trace _ _, ?_,
    ?_, ?_, rfl⟩
  · rw [NEED_HANDLE_trace, replies_append]; rfl
  · rw [NEED_HANDLE_trace, engine_calls_append]; simp [engine_calls, Event.is_engine_call]
  · rw [NEED_HANDLE_h, hs]

/-- Claim C1 at a concrete request: `node-set-value` on a fresh daemon. -/
theorem gate_rejects_without_session_witness :
    (Op.hivex_node_set_value 32 "Data" 1 [104, 105] 2).gated = true ∧
    (⟨0, 0, []⟩ : State).h = 0 ∧
    ∃ s', dispatch realConsts goodEnv (Op.hivex_node_set_value 32 "Data" 1 [104, 105] 2)
        ⟨0, 0, []⟩ = some ((Op.hivex_node_set_value 32 "Data" 1 [104, 105] 2).errcode, s') ∧
      s'.trace = [] ++ [Event.reply_with_error
        ((Op.hivex_node_set_value 32 "Data" 1 [104, 105] 2).func ++
          ": you must call 'hivex-open' first to initialize the hivex handle")] ∧
      replies s'.trace = replies [] ++ [Event.reply_with_error
        ((Op.hivex_node_set_value 32 "Data" 1 [104, 105] 2).func ++
          ": you must call 'hivex-open' first to initialize the hivex handle")] ∧
      engine_calls s'.trace = engine_calls [] ∧
      s'.h = 0 ∧ s'.errno = 0 :=
  ⟨rfl, rfl, gate_rejects_without_session realConsts goodEnv
    (Op.hivex_node_set_value 32 "Data" 1 [104, 105] 2) ⟨0, 0, []⟩ rfl rfl⟩

/-! ## Close -/

/-- Claim C9. With the Session holding a handle, close succeeds, calls the engine's close
on that handle exactly once and empties the slot; every gated operation called next (for
instance node-name on a handle obtained earlier) fails with the precondition error, and a
second close fails with the precondition error without a further engine call. -/
theorem close_releases_session (C : Consts) (E : Env) (s : State) (hopen : s.h ≠ 0) :
    (do_hivex_close E s).1 = 0 ∧
    (do_hivex_close E s).2.trace = s.trace ++ [Event.hivex_close s.h] ∧
    engine_calls (do_hivex_close E s).2.trace =
      engine_calls s.trace ++ [Event.hivex_close s.h] ∧
    replies (do_hivex_close E s).2.trace = replies s.trace ∧
    (do_hivex_close E s).2.h = 0 ∧
    (∀ op : Op, op.gated = true →
      dispatch C E op (do_hivex_close E s).2 =
        some (op.errcode, NEED_HANDLE op.func (do_hivex_close E s).2)) ∧
    (∀ nodeh : Int, do_hivex_node_name E nodeh (do_hivex_close E s).2 =
      (none, NEED_HANDLE "do_hivex_node_name" (do_hivex_close E s).2)) ∧
    (do_hivex_close E (do_hivex_close E s).2).1 = -1 ∧
    (do_hivex_close E (do_hivex_close E s).2).2 =
      NEED_HANDLE "do_hivex_close" (do_hivex_close E s).2 ∧
    engine_calls (do_hivex_close E (do_hivex_close E s).2).2.trace =
      engine_calls (do_hivex_close E s).2.trace := by
  have h0 : (do_hivex_close E s).2.h = 0 := by simp [do_hivex_close, hopen]
  have ht : (do_hivex_close E s).2.trace = s.trace ++ [Event.hivex_close s.h] := by
    simp [do_hivex_close, hopen]
  have h2 : do_hivex_close E (do_hivex_close E s).2 =
      (-1, NEED_HANDLE "do_hivex_close" (do_hivex_close E s).2) := by
    generalize do_hivex_close E s = r at h0
    simp [do_hivex_close, h0]
  refine ⟨by simp [do_hivex_close, hopen], ht, ?_, ?_, h0, ?_, ?_, ?_, ?_, ?_⟩
  · rw [ht, engine_calls_append]; rfl
  · rw [ht, replies_append]; simp [replies, Event.is_reply]
  · intro op hg
    exact dispatch_closed C E op _ hg h0
  · intro nodeh
    generalize do_hivex_close E s = r at h0
    simp [do_hivex_node_name, h0]
  · rw [h2]
  · rw [h2]
  · rw [h2]
    show engine_calls (NEED_HANDLE _ _).trace = _
    rw [NEED_HANDLE_trace, engine_calls_append]
    simp [engine_calls, Event.is_engine_call]

/-- Claim C9 on the scenario of the specification: the Session holds handle 7. -/
theorem close_releases_session_witness :
    (⟨7, 0, []⟩ : State).h ≠ 0 ∧
    do_hivex_close goodEnv ⟨7, 0, []⟩ = (0, ⟨0, 0, [Event.hivex_close 7]⟩) ∧
    (do_hivex_close goodEnv ⟨7, 0, []⟩).2.h = 0 ∧
    do_hivex_node_name goodEnv 32 (do_hivex_close goodEnv ⟨7, 0, []⟩).2 =
      (none, NEED_HANDLE "do_hivex_node_name" (do_hivex_close goodEnv ⟨7, 0, []⟩).2) :=
  ⟨by decide, by decide,
   (close_releases_session realConsts goodEnv ⟨7, 0, []⟩ (by decide)).2.2.2.2.1,
   (close_releases_session realConsts goodEnv ⟨7, 0, []⟩ (by decide)).2.2.2.2.2.2.1 32⟩

/-! ## Open -/

theorem do_hivex_open_no_path (C : Consts) (E : Env) (m : Nat) (f : String) (v d w : Int)
    (s : State) (hp : (open_resolved E f s).1 = none) :
    do_hivex_open C E m f v d w s =
      (-1, reply_with_perror "malloc"
        (call (open_release E s) (Event.sysroot_path f) (open_resolved E f s).2)) := by
  unfold open_resolved at hp
  simp only [do_hivex_open, open_resolved]
  rw [hp]

theorem do_hivex_open_path (C : Consts) (E : Env) (m : Nat) (f : String) (v d w : Int)
    (s : State) (path : String) (hp : (open_resolved E f s).1 = some path) :
    do_hivex_open C E m f v d w s =
      (if (open_answer C E m f v d w s path).1 = 0 then (-1 : Int) else 0,
       { h := (open_answer C E m f v d w s path).1
         errno := (open_answer C E m f v d w s path).2
         trace := (open_release E s).trace ++ [Event.sysroot_path f] ++
           [Event.hivex_open path (open_flags C m v d w)
             (open_answer C E m f v d w s path).1] ++
           (if (open_answer C E m f v d w s path).1 = 0 then
              [Event.reply_with_perror ("hivex failed to open " ++ f)
                (open_answer C E m f v d w s path).2,
               Event.free_string path]
            else [Event.free_string path]) }) := by
  unfold open_resolved at hp
  simp only [do_hivex_open, open_answer, open_resolved]
  rw [hp]
  simp only [call_trace, call_errno]
  split <;> simp_all [free, reply_with_perror, call]

/-- Claim C2. Whatever the Session slot held before and whatever the arguments, open
returns 0 or -1; it returns -1 exactly when the path resolver gives no path or the
engine's open gives no handle; and whenever it returns -1 the slot is empty afterwards,
so that every gated operation called next fails with the precondition error. -/
theorem failed_open_leaves_no_session (C : Consts) (E : Env) (m : Nat) (f : String)
    (v d w : Int) (s : State) :
    ((do_hivex_open C E m f v d w s).1 = 0 ∨ (do_hivex_open C E m f v d w s).1 = -1) ∧
    ((do_hivex_open C E m f v d w s).1 = -1 ↔
      ((open_resolved E f s).1 = none ∨
       ∃ path, (open_resolved E f s).1 = some path ∧
        (open_answer C E m f v d w s path).1 = 0)) ∧
    ((do_hivex_open C E m f v d w s).1 = -1 →
      (do_hivex_open C E m f v d w s).2.h = 0 ∧
      ∀ op : Op, op.gated = true →
        dispatch C E op (do_hivex_open C E m f v d w s).2 =
          some (op.errcode, NEED_HANDLE op.func (do_hivex_open C E m f v d w s).2)) := by
  have key : ((do_hivex_open C E m f v d w s).1 = 0 ∨
        (do_hivex_open C E m f v d w s).1 = -1) ∧
      ((do_hivex_open C E m f v d w s).1 = -1 ↔
        ((open_resolved E f s).1 = none ∨
         ∃ path, (open_resolved E f s).1 = some path ∧
          (open_answer C E m f v d w s path).1 = 0)) ∧
      ((do_hivex_open C E m f v d w s).1 = -1 → (do_hivex_open C E m f v d w s).2.h = 0) := by
    cases hp : (open_resolved E f s).1 with
    | none =>
      rw [do_hivex_open_no_path C E m f v d w s hp]
      simp [open_release_h]
    | some path =>
      rw [do_hivex_open_path C E m f v d w s path hp]
      by_cases h0 : (open_answer C E m f v d w s path).1 = 0
      · simp [h0]
      · simp [h0]
  refine ⟨key.1, key.2.1, fun hfail => ⟨key.2.2 hfail, fun op hg => ?_⟩⟩
  exact dispatch_closed C E op _ hg (key.2.2 hfail)

/-! ## At most one Session -/

theorem NEED_HANDLE_inv (f : String) (s : State) (h : session_inv s) :
    session_inv (NEED_HANDLE f s) := by
  unfold session_inv at *
  rw [NEED_HANDLE_trace, live_handles_snoc, NEED_HANDLE_h, ← h]
  rfl

theorem do_hivex_close_inv (E : Env) (s : State) (h : session_inv s) :
    session_inv (do_hivex_close E s).2 := by
  unfold do_hivex_close
  split
  · exact NEED_HANDLE_inv _ s h
  · rename_i hne
    unfold session_inv at *
    simp [live_handles_snoc, live_step, h, slot, hne]

theorem open_release_inv (E : Env) (s : State) (h : session_inv s) :
    live_handles (open_release E s).trace = [] := by
  unfold session_inv at h
  rw [open_release_trace]
  by_cases h0 : s.h = 0
  · simp [h0, h, slot]
  · simp [h0, live_handles_snoc, live_step, h, slot]

theorem do_hivex_open_inv (C : Consts) (E : Env) (m : Nat) (f : String) (v d w : Int)
    (s : State) (h : session_inv s) : session_inv (do_hivex_open C E m f v d w s).2 := by
  have hr := open_release_inv E s h
  unfold session_inv
  cases hp : (open_resolved E f s).1 with
  | none =>
    rw [do_hivex_open_no_path C E m f v d w s hp]
    simp [live_handles_append, live_step, hr, open_release_h, slot]
  | some path =>
    rw [do_hivex_open_path C E m f v d w s path hp]
    by_cases h0 : (open_answer C E m f v d w s path).1 = 0
    · simp [h0, live_handles_append, live_step, hr, slot]
    · simp [h0, live_handles_append, live_step, hr, slot]

theorem do_hivex_root_inv (E : Env) (s : State) (h : session_inv s) :
    session_inv (do_hivex_root E s).2 := by
  unfold session_inv at *
  unfold do_hivex_root
  dsimp only
  split_ifs <;>
    simp [NEED_HANDLE, reply_with_error, live_handles_append, live_step, h]

theorem do_hivex_node_name_inv (E : Env) (n : Int) (s : State) (h : session_inv s) :
    session_inv (do_hivex_node_name E n s).2 := by
  unfold session_inv at *
  unfold do_hivex_node_name
  dsimp only
  split_ifs
  · simp [NEED_HANDLE, reply_with_error, live_handles_append, live_step, h]
  · split <;> simp [live_handles_append, live_step, h]

theorem do_hivex_node_children_inv (C : Consts) (E : Env) (n : Int) (s : State)
    (x : Option guestfs_int_hivex_node_list × State) (h : session_inv s)
    (hx : do_hivex_node_children C E n s = some x) : session_inv x.2 := by
  unfold session_inv at *
  unfold do_hivex_node_children at hx
  dsimp only at hx
  repeat' split at hx
  all_goals first
    | (cases hx
       simp [NEED_HANDLE, reply_with_error, live_handles_append, live_step, h])
    | cases hx

theorem do_hivex_node_values_inv (C : Consts) (E : Env) (n : Int) (s : State)
    (x : Option guestfs_int_hivex_value_list × State) (h : session_inv s)
    (hx : do_hivex_node_values C E n s = some x) : session_inv x.2 := by
  unfold session_inv at *
  unfold do_hivex_node_values at hx
  dsimp only at hx
  repeat' split at hx
  all_goals first
    | (cases hx
       simp [NEED_HANDLE, reply_with_error, live_handles_append, live_step, h])
    | cases hx

theorem do_hivex_node_get_child_inv (E : Env) (n : Int) (name : String) (s : State)
    (h : session_inv s) : session_inv (do_hivex_node_get_child E n name s).2 := by
  unfold session_inv at *
  unfold do_hivex_node_get_child
  dsimp only
  split_ifs <;>
    simp [NEED_HANDLE, reply_with_error, live_handles_append, live_step, h]

theorem do_hivex_node_parent_inv (E : Env) (n : Int) (s : State) (h : session_inv s) :
    session_inv (do_hivex_node_parent E n s).2 := by
  unfold session_inv at *
  unfold do_hivex_node_parent
  dsimp only
  split_ifs <;>
    simp [NEED_HANDLE, reply_with_error, live_handles_append, live_step, h]

theorem do_hivex_node_get_value_inv (E : Env) (n : Int) (key : String) (s : State)
    (h : session_inv s) : session_inv (do_hivex_node_get_value E n key s).2 := by
  unfold session_inv at *
  unfold do_hivex_node_get_value
  dsimp only
  split_ifs <;>
    simp [NEED_HANDLE, reply_with_error, live_handles_append, live_step, h]

theorem do_hivex_value_key_inv (E : Env) (n : Int) (s : State) (h : session_inv s) :
    session_inv (do_hivex_value_key E n s).2 := by
  unfold session_inv at *
  unfold do_hivex_value_key
  dsimp only
  split_ifs
  · simp [NEED_HANDLE, reply_with_error, live_handles_append, live_step, h]
  · split <;> simp [live_handles_append, live_step, h]

theorem do_hivex_value_type_inv (E : Env) (n : Int) (s : State) (h : session_inv s) :
    session_inv (do_hivex_value_type E n s).2 := by
  unfold session_inv at *
  unfold do_hivex_value_type
  dsimp only
  split_ifs <;>
    simp [NEED_HANDLE, reply_with_error, live_handles_append, live_step, h]

theorem do_hivex_value_value_inv (E : Env) (n : Int) (s : State) (h : session_inv s) :
    session_inv (do_hivex_value_value E n s).2 := by
  unfold session_inv at *
  unfold do_hivex_value_value
  dsimp only
  split_ifs
  · simp [NEED_HANDLE, reply_with_error, live_handles_append, live_step, h]
  · split <;> simp [live_handles_append, live_step, h]

theorem do_hivex_commit_inv (E : Env) (f : String) (s : State) (h : session_inv s) :
    session_inv (do_hivex_commit E f s).2 := by
  unfold session_inv at *
  unfold do_hivex_commit
  dsimp only
  split_ifs <;>
    simp [NEED_HANDLE, reply_with_error, live_handles_append, live_step, h]

theorem do_hivex_node_add_child_inv (E : Env) (n : Int) (name : String) (s : State)
    (h : session_inv s) : session_inv (do_hivex_node_add_child E n name s).2 := by
  unfold session_inv at *
  unfold do_hivex_node_add_child
  dsimp only
  split_ifs <;>
    simp [NEED_HANDLE, reply_with_error, live_handles_append, live_step, h]

theorem do_hivex_node_delete_child_inv (E : Env) (n : Int) (s : State)
    (h : session_inv s) : session_inv (do_hivex_node_delete_child E n s).2 := by
  unfold session_inv at *
  unfold do_hivex_node_delete_child
  dsimp only
  split_ifs <;>
    simp [NEED_HANDLE, reply_with_error, live_handles_append, live_step, h]

theorem do_hivex_node_set_value_inv (E : Env) (n : Int) (key : String) (t : Int)
    (val : List Nat) (sz : Nat) (s : State) (h : session_inv s) :
    session_inv (do_hivex_node_set_value E n key t val sz s).2 := by
  unfold session_inv at *
  unfold do_hivex_node_set_value
  dsimp only
  split_ifs <;>
    simp [NEED_HANDLE, reply_with_error, live_handles_append, live_step, h]

/-- Every request preserves the Session invariant. -/
theorem dispatch_inv (C : Consts) (E : Env) (op : Op) (s : State) (x : Ret × State)
    (h : session_inv s) (hx : dispatch C E op s = some x) : session_inv x.2 := by
  cases op with
  | hivex_open m f v d w =>
    simp only [dispatch, Option.some.injEq] at hx
    subst hx
    exact do_hivex_open_inv C E m f v d w s h
  | hivex_close =>
    simp only [dispatch, Option.some.injEq] at hx
    subst hx
    exact do_hivex_close_inv E s h
  | hivex_root =>
    simp only [dispatch, Option.some.injEq] at hx
    subst hx
    exact do_hivex_root_inv E s h
  | hivex_node_name n =>
    simp only [dispatch, Option.some.injEq] at hx
    subst hx
    exact do_hivex_node_name_inv E n s h
  | hivex_node_children n =>
    simp only [dispatch, Option.map_eq_some'] at hx
    obtain ⟨y, hy, rfl⟩ := hx
    exact do_hivex_node_children_inv C E n s y h hy
  | hivex_node_get_child n name =>
    simp only [dispatch, Option.some.injEq] at hx
    subst hx
    exact do_hivex_node_get_child_inv E n name s h
  | hivex_node_parent n =>
    simp only [dispatch, Option.some.injEq] at hx
    subst hx
    exact do_hivex_node_parent_inv E n s h
  | hivex_node_values n =>
    simp only [dispatch, Option.map_eq_some'] at hx
    obtain ⟨y, hy, rfl⟩ := hx
    exact do_hivex_node_values_inv C E n s y h hy
  | hivex_node_get_value n key =>
    simp only [dispatch, Option.some.injEq] at hx
    subst hx
    exact do_hivex_node_get_value_inv E n key s h
  | hivex_value_key n =>
    simp only [dispatch, Option.some.injEq] at hx
    subst hx
    exact do_hivex_value_key_inv E n s h
  | hivex_value_type n =>
    simp only [dispatch, Option.some.injEq] at hx
    subst hx
    exact do_hivex_value_type_inv E n s h
  | hivex_value_value n =>
    simp only [dispatch, Option.some.injEq] at hx
    subst hx
    exact do_hivex_value_value_inv E n s h
  | hivex_commit f =>
    simp only [dispatch, Option.some.injEq] at hx
    subst hx
    exact do_hivex_commit_inv E f s h
  | hivex_node_add_child n name =>
    simp only [dispatch, Option.some.injEq] at hx
    subst hx
    exact do_hivex_node_add_child_inv E n name s h
  | hivex_node_delete_child n =>
    simp only [dispatch, Option.some.injEq] at hx
    subst hx
    exact do_hivex_node_delete_child_inv E n s h
  | hivex_node_set_value n key t val sz =>
    simp only [dispatch, Option.some.injEq] at hx
    subst hx
    exact do_hivex_node_set_value_inv E n key t val sz s h

theorem run_inv (C : Consts) (E : Env) (ops : List Op) :
    ∀ s0 s1 : State, session_inv s0 → run C E ops s0 = some s1 → session_inv s1 := by
  induction ops with
  | nil =>
    intro s0 s1 h hr
    simp only [run, Option.some.injEq] at hr
    subst hr
    exact h
  | cons op ops ih =>
    intro s0 s1 h hr
    simp only [run] at hr
    cases hd : dispatch C E op s0 with
    | none => rw [hd] at hr; cases hr
    | some x =>
      rw [hd] at hr
      exact ih x.2 s1 (dispatch_inv C E op s0 x h hd) hr

/-! ## List marshalling -/

theorem count_loop_split (pre post : List Nat) (z : Nat) (hz : z % 2 ^ 64 = 0)
    (hpre : ∀ v ∈ pre, v % 2 ^ 64 ≠ 0) :
    count_loop (pre ++ z :: post) ((pre ++ z :: post).length + 1) 0 0 =
      some pre.length := by
  have h := count_loop_first_zero (pre ++ z :: post) pre.length
    ((pre ++ z :: post).length + 1) 0 0 (by simp; omega)
    ⟨z, by rw [Nat.zero_add, List.getElem?_append_right (Nat.le_refl _)]; simp, hz⟩
    (fun j hj v hv => by
      rw [Nat.zero_add, List.getElem?_append_left hj] at hv
      exact hpre v (List.getElem?_mem hv))
  simpa using h

theorem copy_loop_split (pre post : List Nat) (z : Nat) :
    copy_loop (pre ++ z :: post) pre.length 0 [] = some (pre.map toInt64) := by
  rw [copy_loop_eq _ _ 0 [] (by simp)]
  simp

theorem toInt64_ne_zero_of_mem (pre : List Nat) (hpre : ∀ v ∈ pre, v % 2 ^ 64 ≠ 0) :
    (0 : Int) ∉ pre.map toInt64 := by
  intro h
  obtain ⟨v, hv, h0⟩ := List.mem_map.mp h
  exact hpre v hv ((toInt64_eq_zero_iff v).mp h0)

theorem do_hivex_node_children_ok (C : Consts) (E : Env) (nodeh : Int) (s : State)
    (pre post : List Nat) (z : Nat) (hopen : s.h ≠ 0) (hz : z % 2 ^ 64 = 0)
    (hpre : ∀ v ∈ pre, v % 2 ^ 64 ≠ 0)
    (hr : (E.hivex_node_children s.trace s.errno s.h (toUInt64 nodeh)).1 =
      some (pre ++ z :: post))
    (hm1 : (malloc E C.sizeof_node_list
      (call s (Event.hivex_node_children s.h (toUInt64 nodeh))
        (E.hivex_node_children s.trace s.errno s.h (toUInt64 nodeh)).2)).1 ≠ 0)
    (hm2 : (malloc E (pre.length * C.sizeof_node % 2 ^ 64)
      (malloc E C.sizeof_node_list
        (call s (Event.hivex_node_children s.h (toUInt64 nodeh))
          (E.hivex_node_children s.trace s.errno s.h (toUInt64 nodeh)).2)).2).1 ≠ 0) :
    do_hivex_node_children C E nodeh s =
      some (some ⟨pre.length % 2 ^ 32, pre.map toInt64⟩,
        free (Event.free_array (pre ++ z :: post))
          (malloc E (pre.length * C.sizeof_node % 2 ^ 64)
            (malloc E C.sizeof_node_list
              (call s (Event.hivex_node_children s.h (toUInt64 nodeh))
                (E.hivex_node_children s.trace s.errno s.h (toUInt64 nodeh)).2)).2).2) := by
  unfold do_hivex_node_children
  simp only [if_neg hopen, hr, count_loop_split pre post z hz hpre, if_neg hm1, if_neg hm2,
    copy_loop_split]

theorem do_hivex_node_values_ok (C : Consts) (E : Env) (nodeh : Int) (s : State)
    (pre post : List Nat) (z : Nat) (hopen : s.h ≠ 0) (hz : z % 2 ^ 64 = 0)
    (hpre : ∀ v ∈ pre, v % 2 ^ 64 ≠ 0)
    (hr : (E.hivex_node_values s.trace s.errno s.h (toUInt64 nodeh)).1 =
      some (pre ++ z :: post))
    (hm1 : (malloc E C.sizeof_value_list
      (call s (Event.hivex_node_values s.h (toUInt64 nodeh))
        (E.hivex_node_values s.trace s.errno s.h (toUInt64 nodeh)).2)).1 ≠ 0)
    (hm2 : (malloc E (pre.length * C.sizeof_value % 2 ^ 64)
      (malloc E C.sizeof_value_list
        (call s (Event.hivex_node_values s.h (toUInt64 nodeh))
          (E.hivex_node_values s.trace s.errno s.h (toUInt64 nodeh)).2)).2).1 ≠ 0) :
    do_hivex_node_values C E nodeh s =
      some (some ⟨pre.length % 2 ^ 32, pre.map toInt64⟩,
        free (Event.free_array (pre ++ z :: post))
          (malloc E (pre.length * C.sizeof_value % 2 ^ 64)
            (malloc E C.sizeof_value_list
              (call s (Event.hivex_node_values s.h (toUInt64 nodeh))
                (E.hivex_node_values s.trace s.errno s.h (toUInt64 nodeh)).2)).2).2) := by
  unfold do_hivex_node_values
  simp only [if_neg hopen, hr, count_loop_split pre post z hz hpre, if_neg hm1, if_neg hm2,
    copy_loop_split]

theorem toInt64_of_lt (v : Nat) (h : v < 2 ^ 63) : toInt64 v = (v : Int) := by
  unfold toInt64
  split <;> omega

theorem marshalled_split (pre post : List Nat) (z : Nat)
    (hpre : ∀ v ∈ pre, v % 2 ^ 64 ≠ 0) :
    marshalled (pre ++ z :: post) pre.length (pre.length % 2 ^ 32) (pre.map toInt64) := by
  refine ⟨rfl, fun h => Nat.mod_eq_of_lt h, by simp, ?_, toInt64_ne_zero_of_mem pre hpre⟩
  intro i hi
  have hr : (pre ++ z :: post)[i]? = some pre[i] := by
    rw [List.getElem?_append_left hi, List.getElem?_eq_getElem hi]
  have hv : (pre.map toInt64)[i]? = some (toInt64 pre[i]) := by
    rw [List.getElem?_map, List.getElem?_eq_getElem hi]
    rfl
  rw [hr, hv]
  refine ⟨by simp, rfl, ?_⟩
  simp only [Option.map_some', toUInt64_toInt64]

theorem do_hivex_node_children_alloc_fails (C : Consts) (E : Env) (nodeh : Int)
    (s : State) (pre post : List Nat) (z : Nat) (hopen : s.h ≠ 0) (hz : z % 2 ^ 64 = 0)
    (hpre : ∀ v ∈ pre, v % 2 ^ 64 ≠ 0)
    (hr : (E.hivex_node_children s.trace s.errno s.h (toUInt64 nodeh)).1 =
      some (pre ++ z :: post))
    (hm : (malloc E C.sizeof_node_list
        (call s (Event.hivex_node_children s.h (toUInt64 nodeh))
          (E.hivex_node_children s.trace s.errno s.h (toUInt64 nodeh)).2)).1 = 0 ∨
      (malloc E (pre.length * C.sizeof_node % 2 ^ 64)
        (malloc E C.sizeof_node_list
          (call s (Event.hivex_node_children s.h (toUInt64 nodeh))
            (E.hivex_node_children s.trace s.errno s.h (toUInt64 nodeh)).2)).2).1 = 0) :
    ∃ s' e, do_hivex_node_children C E nodeh s = some (none, s') ∧ s'.h = s.h ∧
      replies s'.trace = replies s.trace ++ [Event.reply_with_perror "malloc" e] := by
  unfold do_hivex_node_children
  simp only [if_neg hopen, hr, count_loop_split pre post z hz hpre]
  split
  · exact ⟨_, _, rfl, rfl, by simp [replies, List.filter_cons, Event.is_reply]; rfl⟩
  · rename_i h1
    have h2 := hm.resolve_left h1
    rw [if_pos h2]
    exact ⟨_, _, rfl, rfl, by simp [replies, List.filter_cons, Event.is_reply]; rfl⟩

theorem do_hivex_node_values_alloc_fails (C : Consts) (E : Env) (nodeh : Int)
    (s : State) (pre post : List Nat) (z : Nat) (hopen : s.h ≠ 0) (hz : z % 2 ^ 64 = 0)
    (hpre : ∀ v ∈ pre, v % 2 ^ 64 ≠ 0)
    (hr : (E.hivex_node_values s.trace s.errno s.h (toUInt64 nodeh)).1 =
      some (pre ++ z :: post))
    (hm : (malloc E C.sizeof_value_list
        (call s (Event.hivex_node_values s.h (toUInt64 nodeh))
          (E.hivex_node_values s.trace s.errno s.h (toUInt64 nodeh)).2)).1 = 0 ∨
      (malloc E (pre.length * C.sizeof_value % 2 ^ 64)
        (malloc E C.sizeof_value_list
          (call s (Event.hivex_node_values s.h (toUInt64 nodeh))
            (E.hivex_node_values s.trace s.errno s.h (toUInt64 nodeh)).2)).2).1 = 0) :
    ∃ s' e, do_hivex_node_values C E nodeh s = some (none, s') ∧ s'.h = s.h ∧
      replies s'.trace = replies s.trace ++ [Event.reply_with_perror "malloc" e] := by
  unfold do_hivex_node_values
  simp only [if_neg hopen, hr, count_loop_split pre post z hz hpre]
  split
  · exact ⟨_, _, rfl, rfl, by simp [replies, List.filter_cons, Event.is_reply]; rfl⟩
  · rename_i h1
    have h2 := hm.resolve_left h1
    rw [if_pos h2]
    exact ⟨_, _, rfl, rfl, by simp [replies, List.filter_cons, Event.is_reply]; rfl⟩

/-- Claim C4 as stated fails in two ways. With an allocator that answers the zero-size
request with `NULL`, node-children on an engine array that holds only the sentinel fails
with a "malloc" error reply instead of returning the empty list. With an engine array
whose first zero entry is at index `2 ^ 32`, node-children succeeds and the length field
of the list is 0, not `2 ^ 32`. -/
theorem list_marshal_allocation_and_width :
    do_hivex_node_children realConsts zeroSizeNullEnv 32 ⟨7, 0, []⟩ =
      some (none, ⟨7, 12, [Event.hivex_node_children 7 32, Event.malloc 16 4096,
        Event.malloc 0 0, Event.reply_with_perror "malloc" 12, Event.free_ptr 4096,
        Event.free_array [0]]⟩) ∧
    wideArray.length = 2 ^ 32 ∧
    (∀ v ∈ wideArray, v % 2 ^ 64 ≠ 0) ∧
    (do_hivex_node_children realConsts wideArrayEnv 32 ⟨7, 0, []⟩).map Prod.fst =
      some (some ⟨0, wideArray.map toInt64⟩) := by
  have hlen : wideArray.length = 2 ^ 32 := List.length_replicate _ _
  have hpre : ∀ v ∈ wideArray, v % 2 ^ 64 ≠ 0 := by
    intro v hv
    rw [List.eq_of_mem_replicate hv]
    decide
  have hm : (4096 : Nat) ≠ 0 := by decide
  refine ⟨by decide, hlen, hpre, ?_⟩
  rw [do_hivex_node_children_ok realConsts wideArrayEnv 32 ⟨7, 0, []⟩ wideArray [] 0
    (Nat.succ_ne_zero 6) rfl hpre rfl hm hm, Option.map_some', hlen, Nat.mod_self]

/-- Claim C4, amended. With an open Session, let the engine's array be `pre ++ z :: post`
with every entry of `pre` non-zero and `z` zero, so that its first zero entry is at index
`n = pre.length` (which may be 0). If both local allocations return non-NULL (the list
header and the buffer of `n` elements, a zero-size request when `n = 0`), node-children
and node-values succeed: the array of the list is `pre` converted to `int64_t`, so it has
`n` elements, the i-th equal to the i-th array entry, none of them zero; the 32-bit length
field is `n` modulo `2 ^ 32`, hence exactly `n` when `n < 2 ^ 32`; no error reply is sent
and the Session slot is untouched. If one of the two allocations returns `NULL`, the
operation fails: it returns `NULL` and sends one "malloc" error reply. -/
theorem list_marshal_up_to_sentinel (C : Consts) (E : Env) (nodeh : Int) (s : State)
    (pre post : List Nat) (z : Nat) (hopen : s.h ≠ 0) (hz : z % 2 ^ 64 = 0)
    (hpre : ∀ v ∈ pre, v % 2 ^ 64 ≠ 0) :
    ((E.hivex_node_children s.trace s.errno s.h (toUInt64 nodeh)).1 =
        some (pre ++ z :: post) →
      (malloc E C.sizeof_node_list
        (call s (Event.hivex_node_children s.h (toUInt64 nodeh))
          (E.hivex_node_children s.trace s.errno s.h (toUInt64 nodeh)).2)).1 ≠ 0 →
      (malloc E (pre.length * C.sizeof_node % 2 ^ 64)
        (malloc E C.sizeof_node_list
          (call s (Event.hivex_node_children s.h (toUInt64 nodeh))
            (E.hivex_node_children s.trace s.errno s.h (toUInt64 nodeh)).2)).2).1 ≠ 0 →
      ∃ l s', do_hivex_node_children C E nodeh s = some (some l, s') ∧
        marshalled (pre ++ z :: post) pre.length l.guestfs_int_hivex_node_list_len
          l.guestfs_int_hivex_node_list_val ∧
        l.guestfs_int_hivex_node_list_val = pre.map toInt64 ∧
        replies s'.trace = replies s.trace ∧ s'.h = s.h) ∧
    ((E.hivex_node_children s.trace s.errno s.h (toUInt64 nodeh)).1 =
        some (pre ++ z :: post) →
      ((malloc E C.sizeof_node_list
          (call s (Event.hivex_node_children s.h (toUInt64 nodeh))
            (E.hivex_node_children s.trace s.errno s.h (toUInt64 nodeh)).2)).1 = 0 ∨
        (malloc E (pre.length * C.sizeof_node % 2 ^ 64)
          (malloc E C.sizeof_node_list
            (call s (Event.hivex_node_children s.h (toUInt64 nodeh))
              (E.hivex_node_children s.trace s.errno s.h (toUInt64 nodeh)).2)).2).1 = 0) →
      ∃ s' e, do_hivex_node_children C E nodeh s = some (none, s') ∧ s'.h = s.h ∧
        replies s'.trace = replies s.trace ++ [Event.reply_with_perror "malloc" e]) ∧
    ((E.hivex_node_values s.trace s.errno s.h (toUInt64 nodeh)).1 =
        some (pre ++ z :: post) →
      (malloc E C.sizeof_value_list
        (call s (Event.hivex_node_values s.h (toUInt64 nodeh))
          (E.hivex_node_values s.trace s.errno s.h (toUInt64 nodeh)).2)).1 ≠ 0 →
      (malloc E (pre.length * C.sizeof_value % 2 ^ 64)
        (malloc E C.sizeof_value_list
          (call s (Event.hivex_node_values s.h (toUInt64 nodeh))
            (E.hivex_node_values s.trace s.errno s.h (toUInt64 nodeh)).2)).2).1 ≠ 0 →
      ∃ l s', do_hivex_node_values C E nodeh s = some (some l, s') ∧
        marshalled (pre ++ z :: post) pre.length l.guestfs_int_hivex_value_list_len
          l.guestfs_int_hivex_value_list_val ∧
        l.guestfs_int_hivex_value_list_val = pre.map toInt64 ∧
        replies s'.trace = replies s.trace ∧ s'.h = s.h) ∧
    ((E.hivex_node_values s.trace s.errno s.h (toUInt64 nodeh)).1 =
        some (pre ++ z :: post) →
      ((malloc E C.sizeof_value_list
          (call s (Event.hivex_node_values s.h (toUInt64 nodeh))
            (E.hivex_node_values s.trace s.errno s.h (toUInt64 nodeh)).2)).1 = 0 ∨
        (malloc E (pre.length * C.sizeof_value % 2 ^ 64)
          (malloc E C.sizeof_value_list
            (call s (Event.hivex_node_values s.h (toUInt64 nodeh))
              (E.hivex_node_values s.trace s.errno s.h (toUInt64 nodeh)).2)).2).1 = 0) →
      ∃ s' e, do_hivex_node_values C E nodeh s = some (none, s') ∧ s'.h = s.h ∧
        replies s'.trace = replies s.trace ++ [Event.reply_with_perror "malloc" e]) := by
  refine ⟨?_, ?_, ?_, ?_⟩
  · intro hr hm1 hm2
    refine ⟨_, _, do_hivex_node_children_ok C E nodeh s pre post z hopen hz hpre hr hm1 hm2,
      marshalled_split pre post z hpre, rfl, ?_, ?_⟩
    · simp [replies_append, replies, Event.is_reply]
    · simp
  · intro hr hm
    exact do_hivex_node_children_alloc_fails C E nodeh s pre post z hopen hz hpre hr hm
  · intro hr hm1 hm2
    refine ⟨_, _, do_hivex_node_values_ok C E nodeh s pre post z hopen hz hpre hr hm1 hm2,
      marshalled_split pre post z hpre, rfl, ?_, ?_⟩
    · simp [replies_append, replies, Event.is_reply]
    · simp
  · intro hr hm
    exact do_hivex_node_values_alloc_fails C E nodeh s pre post z hopen hz hpre hr hm

/-- Claim C4, amended, on an engine array `[32, 64, 0]` with a healthy allocator: the list
is `[32, 64]` with length field 2. -/
theorem list_marshal_up_to_sentinel_witness :
    (⟨7, 0, []⟩ : State).h ≠ 0 ∧ (0 : Nat) % 2 ^ 64 = 0 ∧
    (∀ v ∈ [32, 64], v % 2 ^ 64 ≠ 0) ∧
    do_hivex_node_children realConsts goodEnv 32 ⟨7, 0, []⟩ =
      some (some ⟨2, [32, 64]⟩, ⟨7, 0, [Event.hivex_node_children 7 32,
        Event.malloc 16 4096, Event.malloc 16 4096, Event.free_array [32, 64, 0]]⟩) ∧
    ∃ l s', do_hivex_node_children realConsts goodEnv 32 ⟨7, 0, []⟩ = some (some l, s') ∧
      marshalled ([32, 64] ++ 0 :: []) 2 l.guestfs_int_hivex_node_list_len
        l.guestfs_int_hivex_node_list_val ∧
      l.guestfs_int_hivex_node_list_val = [32, 64].map toInt64 ∧
      replies s'.trace = replies [] ∧ s'.h = 7 :=
  ⟨by decide, by decide, by decide, by decide,
    (list_marshal_up_to_sentinel realConsts goodEnv 32 ⟨7, 0, []⟩ [32, 64] [] 0
      (by decide) (by decide) (by decide)).1 rfl (by decide) (by decide)⟩

/-- With a healthy allocator an array that holds only the sentinel gives the empty list,
not a failure. -/
theorem node_children_empty_array :
    (do_hivex_node_children realConsts
      (scripted (some "/sysroot/SYSTEM") 4096 7 32 (some [0]) 0 0) 32 ⟨7, 0, []⟩).map
        Prod.fst = some (some ⟨0, []⟩) := by
  decide

/-! ## Replace semantics and the single Session -/

theorem loops_defined (r : List Nat) (h : ∃ v ∈ r, v % 2 ^ 64 = 0) :
    ∃ n l, count_loop r (r.length + 1) 0 0 = some n ∧ copy_loop r n 0 [] = some l := by
  obtain ⟨n, hn, hz, hnz⟩ := exists_first_zero r h
  have hc := count_loop_first_zero r n (r.length + 1) 0 0 (by omega)
    (by simpa using hz) (by simpa using hnz)
  refine ⟨n, _, ?_, copy_loop_eq r n 0 [] (by omega)⟩
  simpa using hc

theorem do_hivex_node_children_total (C : Consts) (E : Env) (n : Int) (s : State)
    (hE : E.sentinel_terminated) : ∃ x, do_hivex_node_children C E n s = some x := by
  unfold do_hivex_node_children
  dsimp only
  split
  · exact ⟨_, rfl⟩
  · split
    · exact ⟨_, rfl⟩
    · rename_i r hr
      obtain ⟨len, l, hc, hl⟩ := loops_defined r (hE.1 _ _ _ _ r hr)
      rw [hc]
      dsimp only
      split
      · exact ⟨_, rfl⟩
      · split
        · exact ⟨_, rfl⟩
        · rw [hl]
          exact ⟨_, rfl⟩

theorem do_hivex_node_values_total (C : Consts) (E : Env) (n : Int) (s : State)
    (hE : E.sentinel_terminated) : ∃ x, do_hivex_node_values C E n s = some x := by
  unfold do_hivex_node_values
  dsimp only
  split
  · exact ⟨_, rfl⟩
  · split
    · exact ⟨_, rfl⟩
    · rename_i r hr
      obtain ⟨len, l, hc, hl⟩ := loops_defined r (hE.2 _ _ _ _ r hr)
      rw [hc]
      dsimp only
      split
      · exact ⟨_, rfl⟩
      · split
        · exact ⟨_, rfl⟩
        · rw [hl]
          exact ⟨_, rfl⟩

theorem dispatch_total (C : Consts) (E : Env) (op : Op) (s : State)
    (hE : E.sentinel_terminated) : ∃ x, dispatch C E op s = some x := by
  cases op with
  | hivex_node_children n =>
    obtain ⟨x, hx⟩ := do_hivex_node_children_total C E n s hE
    exact ⟨(Ret.node_list x.1, x.2), by simp only [dispatch, hx, Option.map_some']⟩
  | hivex_node_values n =>
    obtain ⟨x, hx⟩ := do_hivex_node_values_total C E n s hE
    exact ⟨(Ret.value_list x.1, x.2), by simp only [dispatch, hx, Option.map_some']⟩
  | _ => exact ⟨_, rfl⟩

theorem run_total (C : Consts) (E : Env) (hE : E.sentinel_terminated) (ops : List Op) :
    ∀ s0 : State, ∃ s1, run C E ops s0 = some s1 := by
  induction ops with
  | nil => intro s0; exact ⟨s0, rfl⟩
  | cons op ops ih =>
    intro s0
    obtain ⟨x, hx⟩ := dispatch_total C E op s0 hE
    obtain ⟨s1, h1⟩ := ih x.2
    exact ⟨s1, by simp only [run, hx, h1]⟩

theorem slot_length_le_one (h : Nat) : (slot h).length ≤ 1 := by
  unfold slot
  split <;> simp

/-- Claim C3. When the Session holds handle A, open first releases A: the events it adds
to the history start with the engine's close on A and hold no other close, so the
engine's open, if it is reached, comes after it; the slot then holds exactly what the
engine's open returned. Over any sequence of requests started from a state where the open
engine handles are the content of the slot (for instance a fresh daemon), the engine
handles opened and not yet closed are exactly the content of the slot, hence at most one;
and with an engine whose arrays are sentinel-terminated every sequence runs to the end. -/
theorem open_replaces_session (C : Consts) (E : Env) :
    (∀ (m : Nat) (f : String) (v d w : Int) (s : State), s.h ≠ 0 →
      ∃ rest, (do_hivex_open C E m f v d w s).2.trace =
          s.trace ++ Event.hivex_close s.h :: rest ∧
        (∀ x, Event.hivex_close x ∉ rest) ∧
        (∀ path, (open_resolved E f s).1 = some path →
          Event.hivex_open path (open_flags C m v d w)
            (open_answer C E m f v d w s path).1 ∈ rest ∧
          (do_hivex_open C E m f v d w s).2.h = (open_answer C E m f v d w s path).1) ∧
        (∀ path fl B, Event.hivex_open path fl B ∈ rest →
          (do_hivex_open C E m f v d w s).2.h = B)) ∧
    (∀ (ops : List Op) (s0 s1 : State), live_handles s0.trace = slot s0.h →
      run C E ops s0 = some s1 →
      live_handles s1.trace = slot s1.h ∧ (live_handles s1.trace).length ≤ 1) ∧
    (∀ (e : Int), live_handles (State.mk 0 e []).trace = slot (State.mk 0 e []).h) ∧
    (E.sentinel_terminated → ∀ (ops : List Op) (s0 : State), ∃ s1, run C E ops s0 = some s1) := by
  refine ⟨?_, ?_, fun _ => rfl, fun hE ops s0 => run_total C E hE ops s0⟩
  · intro m f v d w s hopen
    have htr : (open_release E s).trace = s.trace ++ [Event.hivex_close s.h] := by
      rw [open_release_trace, if_neg hopen]
    cases hp : (open_resolved E f s).1 with
    | none =>
      rw [do_hivex_open_no_path C E m f v d w s hp]
      refine ⟨[Event.sysroot_path f,
        Event.reply_with_perror "malloc" (open_resolved E f s).2], ?_, ?_, ?_, ?_⟩
      · simp [htr]
      · simp
      · intro path hpath; cases hpath
      · simp
    | some path =>
      rw [do_hivex_open_path C E m f v d w s path hp]
      refine ⟨[Event.sysroot_path f] ++
           [Event.hivex_open path (open_flags C m v d w)
             (open_answer C E m f v d w s path).1] ++
           (if (open_answer C E m f v d w s path).1 = 0 then
              [Event.reply_with_perror ("hivex failed to open " ++ f)
                (open_answer C E m f v d w s path).2,
               Event.free_string path]
            else [Event.free_string path]), ?_, ?_, ?_, ?_⟩
      · simp [htr]
      · intro x
        split <;> simp
      · intro path' hpath
        cases hpath
        simp
      · intro path' fl B
        split <;> simp <;> (intro _ _ hB; exact hB.symm)
  · intro ops s0 s1 h0 hr
    have h1 : session_inv s1 := run_inv C E ops s0 s1 h0 hr
    unfold session_inv at h1
    exact ⟨h1, by rw [h1]; exact slot_length_le_one _⟩

/-! ## Optional-argument decoding -/

theorem land_two_pow_ne_zero_iff (m i : Nat) : m &&& 2 ^ i ≠ 0 ↔ m.testBit i = true := by
  constructor
  · intro h
    by_contra hb
    apply h
    apply Nat.eq_of_testBit_eq
    intro n
    rw [Nat.testBit_and, Nat.testBit_two_pow, Nat.zero_testBit]
    by_cases hin : i = n
    · subst hin; simp [hb]
    · simp [hin]
  · intro h h0
    have : (m &&& 2 ^ i).testBit i = true := by
      rw [Nat.testBit_and, Nat.testBit_two_pow, h]; simp
    rw [h0, Nat.zero_testBit] at this
    cases this

theorem open_flags_zero_bitmask (C : Consts) (v d w : Int) : open_flags C 0 v d w = 0 := by
  simp [open_flags]

theorem open_flags_testBit (C : Consts) (m : Nat) (v d w : Int) (a b c i j k : Nat)
    (hV : C.HIVEX_OPEN_VERBOSE = 2 ^ a) (hD : C.HIVEX_OPEN_DEBUG = 2 ^ b)
    (hW : C.HIVEX_OPEN_WRITE = 2 ^ c)
    (hi : C.GUESTFS_HIVEX_OPEN_VERBOSE_BITMASK = 2 ^ i)
    (hj : C.GUESTFS_HIVEX_OPEN_DEBUG_BITMASK = 2 ^ j)
    (hk : C.GUESTFS_HIVEX_OPEN_WRITE_BITMASK = 2 ^ k) (n : Nat) :
    (open_flags C m v d w).testBit n = true ↔
      ((n = a ∧ m.testBit i = true ∧ v ≠ 0) ∨ (n = b ∧ m.testBit j = true ∧ d ≠ 0) ∨
        (n = c ∧ m.testBit k = true ∧ w ≠ 0)) := by
  simp only [open_flags, hV, hD, hW, hi, hj, hk, land_two_pow_ne_zero_iff]
  by_cases h1 : m.testBit i = true <;> by_cases h2 : v = 0 <;>
  by_cases h3 : m.testBit j = true <;> by_cases h4 : d = 0 <;>
  by_cases h5 : m.testBit k = true <;> by_cases h6 : w = 0 <;>
  simp only [h1, h2, h3, h4, h5, h6, Nat.testBit_or, Nat.testBit_two_pow, Nat.zero_testBit,
    Bool.or_eq_true, decide_eq_true_eq, if_true, if_false, ne_eq, not_true_eq_false,
    not_false_eq_true, and_true, and_false, or_false, false_or, Bool.false_eq_true,
    false_and, and_self, iff_self] <;>
  first
    | done
    | (constructor <;> intro h <;> omega)

theorem open_flags_write_only (C : Consts) (m : Nat) (v d w : Int)
    (hv : m &&& C.GUESTFS_HIVEX_OPEN_VERBOSE_BITMASK = 0)
    (hd : m &&& C.GUESTFS_HIVEX_OPEN_DEBUG_BITMASK = 0)
    (hw : m &&& C.GUESTFS_HIVEX_OPEN_WRITE_BITMASK ≠ 0) (hwrite : w ≠ 0) :
    open_flags C m v d w = C.HIVEX_OPEN_WRITE := by
  simp [open_flags, hv, hd, hw, hwrite]

theorem do_hivex_open_passes_flags (C : Consts) (E : Env) (m : Nat) (f : String)
    (v d w : Int) (s : State) (path : String)
    (hp : (open_resolved E f s).1 = some path) :
    Event.hivex_open path (open_flags C m v d w) (open_answer C E m f v d w s path).1 ∈
      (do_hivex_open C E m f v d w s).2.trace := by
  rw [do_hivex_open_path C E m f v d w s path hp]
  simp

/-- Claim C5. Let the three engine flags be the distinct single bits `a`, `b`, `c` and the
three presence masks the single bits `i`, `j`, `k`. For every presence bitmask and every
triple of integer arguments, the flag word that open passes to the engine has the
verbose, debug or write flag set exactly when the matching presence bit is set and the
matching argument is non-zero, and has no other bit set; with an all-zero bitmask the
word is 0 whatever the arguments, and with only the write bit present and write non-zero
it is exactly the write flag. -/
theorem open_flags_decode (C : Consts) (m : Nat) (v d w : Int) (a b c i j k : Nat)
    (hV : C.HIVEX_OPEN_VERBOSE = 2 ^ a) (hD : C.HIVEX_OPEN_DEBUG = 2 ^ b)
    (hW : C.HIVEX_OPEN_WRITE = 2 ^ c) (hab : a ≠ b) (hac : a ≠ c) (hbc : b ≠ c)
    (hi : C.GUESTFS_HIVEX_OPEN_VERBOSE_BITMASK = 2 ^ i)
    (hj : C.GUESTFS_HIVEX_OPEN_DEBUG_BITMASK = 2 ^ j)
    (hk : C.GUESTFS_HIVEX_OPEN_WRITE_BITMASK = 2 ^ k) :
    (∀ (E : Env) (f : String) (s : State) (path : String),
      (open_resolved E f s).1 = some path →
      Event.hivex_open path (open_flags C m v d w) (open_answer C E m f v d w s path).1 ∈
        (do_hivex_open C E m f v d w s).2.trace) ∧
    ((open_flags C m v d w).testBit a = true ↔ (m.testBit i = true ∧ v ≠ 0)) ∧
    ((open_flags C m v d w).testBit b = true ↔ (m.testBit j = true ∧ d ≠ 0)) ∧
    ((open_flags C m v d w).testBit c = true ↔ (m.testBit k = true ∧ w ≠ 0)) ∧
    (∀ n, n ≠ a → n ≠ b → n ≠ c → (open_flags C m v d w).testBit n = false) ∧
    open_flags C 0 v d w = 0 ∧
    (m.testBit i = false → m.testBit j = false → m.testBit k = true → w ≠ 0 →
      open_flags C m v d w = C.HIVEX_OPEN_WRITE) := by
  have key := open_flags_testBit C m v d w a b c i j k hV hD hW hi hj hk
  refine ⟨fun E f s path hp => do_hivex_open_passes_flags C E m f v d w s path hp,
    ?_, ?_, ?_, ?_, open_flags_zero_bitmask C v d w, ?_⟩
  · rw [key a]
    constructor
    · rintro (h | h | h)
      · exact h.2
      · exact absurd h.1 hab
      · exact absurd h.1 hac
    · intro h; exact Or.inl ⟨rfl, h⟩
  · rw [key b]
    constructor
    · rintro (h | h | h)
      · exact absurd h.1.symm hab
      · exact h.2
      · exact absurd h.1 hbc
    · intro h; exact Or.inr (Or.inl ⟨rfl, h⟩)
  · rw [key c]
    constructor
    · rintro (h | h | h)
      · exact absurd h.1.symm hac
      · exact absurd h.1.symm hbc
      · exact h.2
    · intro h; exact Or.inr (Or.inr ⟨rfl, h⟩)
  · intro n ha hb hc
    cases hbit : (open_flags C m v d w).testBit n with
    | false => rfl
    | true =>
      rcases (key n).mp hbit with h | h | h
      · exact absurd h.1 ha
      · exact absurd h.1 hb
      · exact absurd h.1 hc
  · intro h1 h2 h3 h4
    apply open_flags_write_only C m v d w
    · by_contra h
      rw [hi, ← ne_eq, land_two_pow_ne_zero_iff] at h
      rw [h] at h1; cases h1
    · by_contra h
      rw [hj, ← ne_eq, land_two_pow_ne_zero_iff] at h
      rw [h] at h2; cases h2
    · rw [hk, land_two_pow_ne_zero_iff]; exact h3
    · exact h4

/-- Claim C5 with the constants of the real headers: only the write bit is present and
all three arguments are 1; the engine is called with the write flag alone. -/
theorem open_flags_decode_witness :
    realConsts.HIVEX_OPEN_VERBOSE = 2 ^ 0 ∧ realConsts.HIVEX_OPEN_DEBUG = 2 ^ 1 ∧
    realConsts.HIVEX_OPEN_WRITE = 2 ^ 2 ∧
    realConsts.GUESTFS_HIVEX_OPEN_VERBOSE_BITMASK = 2 ^ 0 ∧
    realConsts.GUESTFS_HIVEX_OPEN_DEBUG_BITMASK = 2 ^ 1 ∧
    realConsts.GUESTFS_HIVEX_OPEN_WRITE_BITMASK = 2 ^ 2 ∧
    open_flags realConsts 4 1 1 1 = realConsts.HIVEX_OPEN_WRITE ∧
    open_flags realConsts 0 1 1 1 = 0 :=
  ⟨rfl, rfl, rfl, rfl, rfl, rfl,
    (open_flags_decode realConsts 4 1 1 1 0 1 2 0 1 2 rfl rfl rfl (by decide) (by decide)
      (by decide) rfl rfl rfl).2.2.2.2.2.2 (by decide) (by decide) (by decide) (by decide),
    (open_flags_decode realConsts 4 1 1 1 0 1 2 0 1 2 rfl rfl rfl (by decide) (by decide)
      (by decide) rfl rfl rfl).2.2.2.2.2.1⟩

/-! ## Lookups: not found against failed -/

theorem do_hivex_node_get_child_eq (E : Env) (nodeh : Int) (name : String) (s : State)
    (hopen : s.h ≠ 0) :
    do_hivex_node_get_child E nodeh name s =
      if (E.hivex_node_get_child s.trace 0 s.h (toUInt64 nodeh) name).1 % 2 ^ 64 = 0 ∧
          (E.hivex_node_get_child s.trace 0 s.h (toUInt64 nodeh) name).2 ≠ 0 then
        (-1, ⟨s.h, (E.hivex_node_get_child s.trace 0 s.h (toUInt64 nodeh) name).2,
          s.trace ++ [Event.hivex_node_get_child s.h (toUInt64 nodeh) name,
            Event.reply_with_perror "failed"
              (E.hivex_node_get_child s.trace 0 s.h (toUInt64 nodeh) name).2]⟩)
      else
        (toInt64 (E.hivex_node_get_child s.trace 0 s.h (toUInt64 nodeh) name).1,
          ⟨s.h, (E.hivex_node_get_child s.trace 0 s.h (toUInt64 nodeh) name).2,
            s.trace ++ [Event.hivex_node_get_child s.h (toUInt64 nodeh) name]⟩) := by
  unfold do_hivex_node_get_child
  simp only [if_neg hopen, toInt64_eq_zero_iff, call_errno]
  split <;> simp [call, reply_with_perror]

theorem do_hivex_node_get_value_eq (E : Env) (nodeh : Int) (key : String) (s : State)
    (hopen : s.h ≠ 0) :
    do_hivex_node_get_value E nodeh key s =
      if (E.hivex_node_get_value s.trace 0 s.h (toUInt64 nodeh) key).1 % 2 ^ 64 = 0 ∧
          (E.hivex_node_get_value s.trace 0 s.h (toUInt64 nodeh) key).2 ≠ 0 then
        (-1, ⟨s.h, (E.hivex_node_get_value s.trace 0 s.h (toUInt64 nodeh) key).2,
          s.trace ++ [Event.hivex_node_get_value s.h (toUInt64 nodeh) key,
            Event.reply_with_perror "failed"
              (E.hivex_node_get_value s.trace 0 s.h (toUInt64 nodeh) key).2]⟩)
      else
        (toInt64 (E.hivex_node_get_value s.trace 0 s.h (toUInt64 nodeh) key).1,
          ⟨s.h, (E.hivex_node_get_value s.trace 0 s.h (toUInt64 nodeh) key).2,
            s.trace ++ [Event.hivex_node_get_value s.h (toUInt64 nodeh) key]⟩) := by
  unfold do_hivex_node_get_value
  simp only [if_neg hopen, toInt64_eq_zero_iff, call_errno]
  split <;> simp [call, reply_with_perror]

theorem engine_calls_snoc_reply (tr : List Event) (ev : Event) (m : String) (e : Int)
    (hev : ev.is_engine_call = true) :
    engine_calls (tr ++ [ev, Event.reply_with_perror m e]) = engine_calls tr ++ [ev] := by
  have h2 : (Event.reply_with_perror m e).is_engine_call = false := rfl
  rw [engine_calls_append]
  simp [engine_calls, List.filter_cons, hev, h2]

theorem engine_calls_snoc (tr : List Event) (ev : Event) (hev : ev.is_engine_call = true) :
    engine_calls (tr ++ [ev]) = engine_calls tr ++ [ev] := by
  rw [engine_calls_append]
  simp [engine_calls, List.filter_cons, hev]

theorem not_reply_of_engine_call (ev : Event) (hev : ev.is_engine_call = true) :
    ev.is_reply = false := by
  cases ev <;> first | rfl | cases hev

theorem replies_snoc_reply (tr : List Event) (ev : Event) (m : String) (e : Int)
    (hev : ev.is_engine_call = true) :
    replies (tr ++ [ev, Event.reply_with_perror m e]) =
      replies tr ++ [Event.reply_with_perror m e] := by
  have h1 := not_reply_of_engine_call ev hev
  have h2 : (Event.reply_with_perror m e).is_reply = true := rfl
  rw [replies_append]
  simp [replies, List.filter_cons, h1, h2]

theorem replies_snoc (tr : List Event) (ev : Event) (hev : ev.is_engine_call = true) :
    replies (tr ++ [ev]) = replies tr := by
  have h1 := not_reply_of_engine_call ev hev
  rw [replies_append]
  simp [replies, List.filter_cons, h1]

theorem lookup_outcome_intro (s : State) (ev : Event) (x : Nat × Int)
    (hev : ev.is_engine_call = true) :
    lookup_outcome s ev x
      (if x.1 % 2 ^ 64 = 0 ∧ x.2 ≠ 0 then
        (-1, ⟨s.h, x.2, s.trace ++ [ev, Event.reply_with_perror "failed" x.2]⟩)
      else (toInt64 x.1, ⟨s.h, x.2, s.trace ++ [ev]⟩)) := by
  by_cases hc : x.1 % 2 ^ 64 = 0 ∧ x.2 ≠ 0
  · rw [if_pos hc]
    refine ⟨rfl, engine_calls_snoc_reply _ _ _ _ hev, ?_, ?_, ?_, ?_⟩
    · exact ⟨fun _ => hc, fun _ => ⟨rfl, replies_snoc_reply _ _ _ _ hev⟩⟩
    · refine ⟨fun _ => hc, fun _ => ?_⟩
      show replies (s.trace ++ _) ≠ _
      rw [replies_snoc_reply _ _ _ _ hev]
      intro h
      have := congrArg List.length h
      simp at this
    · intro _ h0; exact absurd h0 hc.2
    · intro h0; exact absurd hc.1 h0
  · rw [if_neg hc]
    have hrep : replies (s.trace ++ [ev]) = replies s.trace := replies_snoc _ _ hev
    refine ⟨rfl, engine_calls_snoc _ _ hev, ?_, ?_, ?_, ?_⟩
    · refine ⟨fun h => ?_, fun h => absurd h hc⟩
      have h2 : replies (s.trace ++ [ev]) = _ := h.2
      rw [hrep] at h2
      have := congrArg List.length h2
      simp at this
    · exact ⟨fun h => absurd hrep h, fun h => absurd h hc⟩
    · intro h0 _
      exact ⟨(toInt64_eq_zero_iff _).mpr h0, hrep⟩
    · intro _
      exact ⟨rfl, toUInt64_toInt64 _, hrep⟩

/-- Claim C6. With an open Session, node-get-child and node-get-value clear `errno`
before the engine call (the engine is asked with `errno` 0 and the result does not
depend on the `errno` on entry), and they report failure (return value -1 with an error
reply) exactly when the engine returned handle 0 and left `errno` non-zero; handle 0 with
`errno` still 0 is returned as 0 without an error reply, and a non-zero handle is
returned as it is whatever `errno` is. -/
theorem lookup_not_found_is_not_failure (E : Env) (nodeh : Int) (name : String)
    (s : State) (hopen : s.h ≠ 0) :
    lookup_outcome s (Event.hivex_node_get_child s.h (toUInt64 nodeh) name)
      (E.hivex_node_get_child s.trace 0 s.h (toUInt64 nodeh) name)
      (do_hivex_node_get_child E nodeh name s) ∧
    lookup_outcome s (Event.hivex_node_get_value s.h (toUInt64 nodeh) name)
      (E.hivex_node_get_value s.trace 0 s.h (toUInt64 nodeh) name)
      (do_hivex_node_get_value E nodeh name s) ∧
    (∀ e : Int, do_hivex_node_get_child E nodeh name { s with errno := e } =
      do_hivex_node_get_child E nodeh name s) ∧
    (∀ e : Int, do_hivex_node_get_value E nodeh name { s with errno := e } =
      do_hivex_node_get_value E nodeh name s) := by
  refine ⟨?_, ?_, ?_, ?_⟩
  · rw [do_hivex_node_get_child_eq E nodeh name s hopen]
    exact lookup_outcome_intro s _ _ rfl
  · rw [do_hivex_node_get_value_eq E nodeh name s hopen]
    exact lookup_outcome_intro s _ _ rfl
  · intro e
    rw [do_hivex_node_get_child_eq E nodeh name s hopen,
      do_hivex_node_get_child_eq E nodeh name ⟨s.h, e, s.trace⟩ hopen]
  · intro e
    rw [do_hivex_node_get_value_eq E nodeh name s hopen,
      do_hivex_node_get_value_eq E nodeh name ⟨s.h, e, s.trace⟩ hopen]

/-- Claim C6 on a lookup of a missing child: the engine answers 0 and leaves `errno` 0;
the operation returns 0 and sends no reply, although `errno` was 5 on entry. -/
theorem lookup_not_found_is_not_failure_witness :
    (⟨7, 5, []⟩ : State).h ≠ 0 ∧
    do_hivex_node_get_child (scripted none 0 7 0 none 0 0) 32 "missing" ⟨7, 5, []⟩ =
      (0, ⟨7, 0, [Event.hivex_node_get_child 7 32 "missing"]⟩) ∧
    lookup_outcome ⟨7, 5, []⟩ (Event.hivex_node_get_child 7 (toUInt64 32) "missing")
      ((scripted none 0 7 0 none 0 0).hivex_node_get_child [] 0 7 (toUInt64 32) "missing")
      (do_hivex_node_get_child (scripted none 0 7 0 none 0 0) 32 "missing" ⟨7, 5, []⟩) :=
  ⟨by decide, by decide,
    (lookup_not_found_is_not_failure (scripted none 0 7 0 none 0 0) 32 "missing" ⟨7, 5, []⟩
      (by decide)).1⟩

/-! ## Mutations that return a status -/

theorem list_append_singleton_ne {α : Type} (l : List α) (a : α) : l ++ [a] ≠ l := by
  intro h
  have := congrArg List.length h
  simp at this

theorem status_outcome_intro (s : State) (ev : Event) (x : Int × Int)
    (hev : ev.is_engine_call = true) :
    status_outcome s ev x
      (if x.1 = -1 then
        (-1, ⟨s.h, x.2, s.trace ++ [ev, Event.reply_with_perror "failed" x.2]⟩)
      else (0, ⟨s.h, x.2, s.trace ++ [ev]⟩)) := by
  by_cases hc : x.1 = -1
  · rw [if_pos hc]
    have hrep := replies_snoc_reply s.trace ev "failed" x.2 hev
    refine ⟨rfl, engine_calls_snoc_reply _ _ _ _ hev, fun _ => ⟨rfl, hrep⟩,
      fun h => absurd hc h, ⟨fun _ => hc, fun _ => rfl⟩,
      ⟨fun h => absurd h (show ¬ ((-1 : Int) = 0) by decide), fun h => absurd hc h⟩, ⟨fun _ => hc, fun _ => ?_⟩⟩
    show replies (s.trace ++ _) ≠ _
    rw [hrep]
    exact list_append_singleton_ne _ _
  · rw [if_neg hc]
    have hrep : replies (s.trace ++ [ev]) = replies s.trace := replies_snoc _ _ hev
    exact ⟨rfl, engine_calls_snoc _ _ hev, fun h => absurd h hc, fun _ => ⟨rfl, hrep⟩,
      ⟨fun h => absurd h (show ¬ ((0 : Int) = -1) by decide), fun h => absurd h hc⟩, ⟨fun _ => hc, fun _ => rfl⟩,
      ⟨fun h => absurd hrep h, fun h => absurd h hc⟩⟩

theorem do_hivex_node_delete_child_eq (E : Env) (nodeh : Int) (s : State)
    (hopen : s.h ≠ 0) :
    do_hivex_node_delete_child E nodeh s =
      if (E.hivex_node_delete_child s.trace s.errno s.h (toUInt64 nodeh)).1 = -1 then
        (-1, ⟨s.h, (E.hivex_node_delete_child s.trace s.errno s.h (toUInt64 nodeh)).2,
          s.trace ++ [Event.hivex_node_delete_child s.h (toUInt64 nodeh),
            Event.reply_with_perror "failed"
              (E.hivex_node_delete_child s.trace s.errno s.h (toUInt64 nodeh)).2]⟩)
      else
        (0, ⟨s.h, (E.hivex_node_delete_child s.trace s.errno s.h (toUInt64 nodeh)).2,
          s.trace ++ [Event.hivex_node_delete_child s.h (toUInt64 nodeh)]⟩) := by
  unfold do_hivex_node_delete_child
  simp only [if_neg hopen]
  split <;> simp [call, reply_with_perror]

theorem do_hivex_node_set_value_eq (E : Env) (nodeh : Int) (key : String) (t : Int)
    (val : List Nat) (sz : Nat) (s : State) (hopen : s.h ≠ 0) :
    do_hivex_node_set_value E nodeh key t val sz s =
      if (E.hivex_node_set_value s.trace s.errno s.h (toUInt64 nodeh)
          ⟨key, t % 2 ^ 32, sz, val⟩ 0).1 = -1 then
        (-1, ⟨s.h, (E.hivex_node_set_value s.trace s.errno s.h (toUInt64 nodeh)
            ⟨key, t % 2 ^ 32, sz, val⟩ 0).2,
          s.trace ++ [Event.hivex_node_set_value s.h (toUInt64 nodeh)
              ⟨key, t % 2 ^ 32, sz, val⟩ 0,
            Event.reply_with_perror "failed"
              (E.hivex_node_set_value s.trace s.errno s.h (toUInt64 nodeh)
                ⟨key, t % 2 ^ 32, sz, val⟩ 0).2]⟩)
      else
        (0, ⟨s.h, (E.hivex_node_set_value s.trace s.errno s.h (toUInt64 nodeh)
            ⟨key, t % 2 ^ 32, sz, val⟩ 0).2,
          s.trace ++ [Event.hivex_node_set_value s.h (toUInt64 nodeh)
            ⟨key, t % 2 ^ 32, sz, val⟩ 0]⟩) := by
  unfold do_hivex_node_set_value
  simp only [if_neg hopen]
  split <;> simp [call, reply_with_perror]

/-- Claim C8 as stated fails: the engine status 1 is non-zero, yet node-delete-child and
node-set-value return 0 and send no error reply. -/
theorem status_one_is_not_reported :
    ((scripted none 0 7 0 none 1 0).hivex_node_delete_child [] 0 7 32).1 = 1 ∧
    do_hivex_node_delete_child (scripted none 0 7 0 none 1 0) 32 ⟨7, 0, []⟩ =
      (0, ⟨7, 0, [Event.hivex_node_delete_child 7 32]⟩) ∧
    replies (do_hivex_node_delete_child (scripted none 0 7 0 none 1 0) 32
      ⟨7, 0, []⟩).2.trace = [] ∧
    do_hivex_node_set_value (scripted none 0 7 0 none 1 0) 32 "Data" 1 [104, 105] 2
        ⟨7, 0, []⟩ =
      (0, ⟨7, 0, [Event.hivex_node_set_value 7 32 ⟨"Data", 1, 2, [104, 105]⟩ 0]⟩) := by
  decide

/-- Claim C8, amended. With an open Session and for every integer status of the engine,
node-delete-child and node-set-value report failure (an error reply and the return value
-1) exactly when the status is -1, and succeed (return value 0, no error reply) for
every other status, zero included. -/
theorem mutation_fails_iff_status_minus_one (E : Env) (nodeh : Int) (key : String)
    (t : Int) (val : List Nat) (sz : Nat) (s : State) (hopen : s.h ≠ 0) :
    status_outcome s (Event.hivex_node_delete_child s.h (toUInt64 nodeh))
      (E.hivex_node_delete_child s.trace s.errno s.h (toUInt64 nodeh))
      (do_hivex_node_delete_child E nodeh s) ∧
    status_outcome s
      (Event.hivex_node_set_value s.h (toUInt64 nodeh) ⟨key, t % 2 ^ 32, sz, val⟩ 0)
      (E.hivex_node_set_value s.trace s.errno s.h (toUInt64 nodeh)
        ⟨key, t % 2 ^ 32, sz, val⟩ 0)
      (do_hivex_node_set_value E nodeh key t val sz s) := by
  constructor
  · rw [do_hivex_node_delete_child_eq E nodeh s hopen]
    exact status_outcome_intro s _ _ rfl
  · rw [do_hivex_node_set_value_eq E nodeh key t val sz s hopen]
    exact status_outcome_intro s _ _ rfl

/-- Claim C8, amended, where the engine answers -1: the failure is reported. -/
theorem mutation_fails_iff_status_minus_one_witness :
    (⟨7, 0, []⟩ : State).h ≠ 0 ∧
    do_hivex_node_delete_child (scripted none 0 7 0 none (-1) 5) 32 ⟨7, 0, []⟩ =
      (-1, ⟨7, 5, [Event.hivex_node_delete_child 7 32,
        Event.reply_with_perror "failed" 5]⟩) ∧
    status_outcome ⟨7, 0, []⟩ (Event.hivex_node_delete_child 7 (toUInt64 32))
      ((scripted none 0 7 0 none (-1) 5).hivex_node_delete_child [] 0 7 (toUInt64 32))
      (do_hivex_node_delete_child (scripted none 0 7 0 none (-1) 5) 32 ⟨7, 0, []⟩) :=
  ⟨by decide, by decide,
    (mutation_fails_iff_status_minus_one (scripted none 0 7 0 none (-1) 5) 32 "Data" 1
      [104, 105] 2 ⟨7, 0, []⟩ (by decide)).1⟩

/-! ## Handles as signed return values -/

theorem handle_outcome_intro (s : State) (ev : Event) (x : Nat × Int) (c : Prop)
    [Decidable c] (hev : ev.is_engine_call = true) (hc : c → x.1 % 2 ^ 64 = 0) :
    handle_outcome s x
      (if c then (-1, ⟨s.h, x.2, s.trace ++ [ev, Event.reply_with_perror "failed" x.2]⟩)
      else (toInt64 x.1, ⟨s.h, x.2, s.trace ++ [ev]⟩)) := by
  by_cases h : c
  · rw [if_pos h]
    have hrep := replies_snoc_reply s.trace ev "failed" x.2 hev
    have hne : replies (s.trace ++ [ev, Event.reply_with_perror "failed" x.2]) ≠
        replies s.trace := by
      rw [hrep]; exact list_append_singleton_ne _ _
    refine ⟨fun _ => rfl, fun _ => ⟨fun _ => hne, fun _ => rfl⟩, fun hx => ?_⟩
    have := hc h
    omega
  · rw [if_neg h]
    have hrep : replies (s.trace ++ [ev]) = replies s.trace := replies_snoc _ _ hev
    refine ⟨fun hr => absurd hrep hr, fun hx => ⟨fun hr => ?_, fun hr => absurd hrep hr⟩,
      fun hx => ⟨(toInt64_eq_neg_one_iff _).mpr hx, hrep⟩⟩
    exact absurd ((toInt64_eq_neg_one_iff _).mp hr) hx

theorem do_hivex_root_eq (E : Env) (s : State) (hopen : s.h ≠ 0) :
    do_hivex_root E s =
      if (E.hivex_root s.trace s.errno s.h).1 % 2 ^ 64 = 0 then
        (-1, ⟨s.h, (E.hivex_root s.trace s.errno s.h).2,
          s.trace ++ [Event.hivex_root s.h,
            Event.reply_with_perror "failed" (E.hivex_root s.trace s.errno s.h).2]⟩)
      else
        (toInt64 (E.hivex_root s.trace s.errno s.h).1,
          ⟨s.h, (E.hivex_root s.trace s.errno s.h).2, s.trace ++ [Event.hivex_root s.h]⟩) := by
  unfold do_hivex_root
  simp only [if_neg hopen, toInt64_eq_zero_iff]
  split <;> simp [call, reply_with_perror]

theorem do_hivex_node_parent_eq (E : Env) (nodeh : Int) (s : State) (hopen : s.h ≠ 0) :
    do_hivex_node_parent E nodeh s =
      if (E.hivex_node_parent s.trace s.errno s.h (toUInt64 nodeh)).1 % 2 ^ 64 = 0 then
        (-1, ⟨s.h, (E.hivex_node_parent s.trace s.errno s.h (toUInt64 nodeh)).2,
          s.trace ++ [Event.hivex_node_parent s.h (toUInt64 nodeh),
            Event.reply_with_perror "failed"
              (E.hivex_node_parent s.trace s.errno s.h (toUInt64 nodeh)).2]⟩)
      else
        (toInt64 (E.hivex_node_parent s.trace s.errno s.h (toUInt64 nodeh)).1,
          ⟨s.h, (E.hivex_node_parent s.trace s.errno s.h (toUInt64 nodeh)).2,
            s.trace ++ [Event.hivex_node_parent s.h (toUInt64 nodeh)]⟩) := by
  unfold do_hivex_node_parent
  simp only [if_neg hopen, toInt64_eq_zero_iff]
  split <;> simp [call, reply_with_perror]

theorem do_hivex_node_add_child_eq (E : Env) (parent : Int) (name : String) (s : State)
    (hopen : s.h ≠ 0) :
    do_hivex_node_add_child E parent name s =
      if (E.hivex_node_add_child s.trace s.errno s.h (toUInt64 parent) name).1 % 2 ^ 64 = 0
      then
        (-1, ⟨s.h, (E.hivex_node_add_child s.trace s.errno s.h (toUInt64 parent) name).2,
          s.trace ++ [Event.hivex_node_add_child s.h (toUInt64 parent) name,
            Event.reply_with_perror "failed"
              (E.hivex_node_add_child s.trace s.errno s.h (toUInt64 parent) name).2]⟩)
      else
        (toInt64 (E.hivex_node_add_child s.trace s.errno s.h (toUInt64 parent) name).1,
          ⟨s.h, (E.hivex_node_add_child s.trace s.errno s.h (toUInt64 parent) name).2,
            s.trace ++ [Event.hivex_node_add_child s.h (toUInt64 parent) name]⟩) := by
  unfold do_hivex_node_add_child
  simp only [if_neg hopen, toInt64_eq_zero_iff]
  split <;> simp [call, reply_with_perror]

/-- Claim C10 as stated fails: when the engine returns the 64-bit handle `2 ^ 64 - 1`,
root succeeds (no error reply is sent) and its signed return value is -1. -/
theorem all_ones_handle_returns_minus_one :
    ((scripted none 0 7 18446744073709551615 none 0 0).hivex_root [] 0 7).1 < 2 ^ 64 ∧
    do_hivex_root (scripted none 0 7 18446744073709551615 none 0 0) ⟨7, 0, []⟩ =
      (-1, ⟨7, 0, [Event.hivex_root 7]⟩) ∧
    replies (do_hivex_root (scripted none 0 7 18446744073709551615 none 0 0)
      ⟨7, 0, []⟩).2.trace = [] := by
  decide

/-- Claim C10, amended. For root, node-parent, node-add-child, node-get-child and
node-get-value with an open Session and for every handle value the engine returns: an
error reply always comes with the return value -1; if the handle is not `2 ^ 64 - 1`, the
signed return value is -1 exactly when an error reply was sent; the handle `2 ^ 64 - 1`
is returned as -1 without an error reply. -/
theorem handle_return_signals_failure (E : Env) (nodeh : Int) (name : String) (s : State)
    (hopen : s.h ≠ 0) :
    handle_outcome s (E.hivex_root s.trace s.errno s.h) (do_hivex_root E s) ∧
    handle_outcome s (E.hivex_node_parent s.trace s.errno s.h (toUInt64 nodeh))
      (do_hivex_node_parent E nodeh s) ∧
    handle_outcome s (E.hivex_node_add_child s.trace s.errno s.h (toUInt64 nodeh) name)
      (do_hivex_node_add_child E nodeh name s) ∧
    handle_outcome s (E.hivex_node_get_child s.trace 0 s.h (toUInt64 nodeh) name)
      (do_hivex_node_get_child E nodeh name s) ∧
    handle_outcome s (E.hivex_node_get_value s.trace 0 s.h (toUInt64 nodeh) name)
      (do_hivex_node_get_value E nodeh name s) := by
  refine ⟨?_, ?_, ?_, ?_, ?_⟩
  · rw [do_hivex_root_eq E s hopen]
    exact handle_outcome_intro s _ _ _ rfl id
  · rw [do_hivex_node_parent_eq E nodeh s hopen]
    exact handle_outcome_intro s _ _ _ rfl id
  · rw [do_hivex_node_add_child_eq E nodeh name s hopen]
    exact handle_outcome_intro s _ _ _ rfl id
  · rw [do_hivex_node_get_child_eq E nodeh name s hopen]
    exact handle_outcome_intro s _ _ _ rfl And.left
  · rw [do_hivex_node_get_value_eq E nodeh name s hopen]
    exact handle_outcome_intro s _ _ _ rfl And.left

/-- Claim C10, amended, on the scenario of the specification: the root handle is 32. -/
theorem handle_return_signals_failure_witness :
    (⟨7, 0, []⟩ : State).h ≠ 0 ∧
    do_hivex_root goodEnv ⟨7, 0, []⟩ = (32, ⟨7, 0, [Event.hivex_root 7]⟩) ∧
    handle_outcome ⟨7, 0, []⟩ (goodEnv.hivex_root [] 0 7)
      (do_hivex_root goodEnv ⟨7, 0, []⟩) :=
  ⟨by decide, by decide,
    (handle_return_signals_failure goodEnv 32 "NewKey" ⟨7, 0, []⟩ (by decide)).1⟩

/-! ## Resource errors and the Session slot -/

/-- Every operation other than open and close leaves the Session slot as it was,
whatever its outcome. -/
theorem dispatch_frame (C : Consts) (E : Env) (op : Op) (s : State) (x : Ret × State)
    (hg : op.gated = true) (hc : op ≠ Op.hivex_close)
    (hx : dispatch C E op s = some x) : x.2.h = s.h := by
  cases op with
  | hivex_open m f v d w => cases hg
  | hivex_close => exact absurd rfl hc
  | hivex_node_children n =>
    simp only [dispatch, Option.map_eq_some'] at hx
    obtain ⟨y, hy, rfl⟩ := hx
    unfold do_hivex_node_children at hy
    dsimp only at hy
    repeat' split at hy
    all_goals first
      | (cases hy; rfl)
      | cases hy
  | hivex_node_values n =>
    simp only [dispatch, Option.map_eq_some'] at hx
    obtain ⟨y, hy, rfl⟩ := hx
    unfold do_hivex_node_values at hy
    dsimp only at hy
    repeat' split at hy
    all_goals first
      | (cases hy; rfl)
      | cases hy
  | hivex_root =>
    simp only [dispatch, Option.some.injEq] at hx
    subst hx
    unfold do_hivex_root
    dsimp only
    repeat' split
    all_goals rfl
  | hivex_node_name n =>
    simp only [dispatch, Option.some.injEq] at hx
    subst hx
    unfold do_hivex_node_name
    dsimp only
    repeat' split
    all_goals rfl
  | hivex_node_get_child n name =>
    simp only [dispatch, Option.some.injEq] at hx
    subst hx
    unfold do_hivex_node_get_child
    dsimp only
    repeat' split
    all_goals rfl
  | hivex_node_parent n =>
    simp only [dispatch, Option.some.injEq] at hx
    subst hx
    unfold do_hivex_node_parent
    dsimp only
    repeat' split
    all_goals rfl
  | hivex_node_get_value n key =>
    simp only [dispatch, Option.some.injEq] at hx
    subst hx
    unfold do_hivex_node_get_value
    dsimp only
    repeat' split
    all_goals rfl
  | hivex_value_key n =>
    simp only [dispatch, Option.some.injEq] at hx
    subst hx
    unfold do_hivex_value_key
    dsimp only
    repeat' split
    all_goals rfl
  | hivex_value_type n =>
    simp only [dispatch, Option.some.injEq] at hx
    subst hx
    unfold do_hivex_value_type
    dsimp only
    repeat' split
    all_goals rfl
  | hivex_value_value n =>
    simp only [dispatch, Option.some.injEq] at hx
    subst hx
    unfold do_hivex_value_value
    dsimp only
    repeat' split
    all_goals rfl
  | hivex_commit f =>
    simp only [dispatch, Option.some.injEq] at hx
    subst hx
    unfold do_hivex_commit
    dsimp only
    repeat' split
    all_goals rfl
  | hivex_node_add_child n name =>
    simp only [dispatch, Option.some.injEq] at hx
    subst hx
    unfold do_hivex_node_add_child
    dsimp only
    repeat' split
    all_goals rfl
  | hivex_node_delete_child n =>
    simp only [dispatch, Option.some.injEq] at hx
    subst hx
    unfold do_hivex_node_delete_child
    dsimp only
    repeat' split
    all_goals rfl
  | hivex_node_set_value n key t val sz =>
    simp only [dispatch, Option.some.injEq] at hx
    subst hx
    unfold do_hivex_node_set_value
    dsimp only
    repeat' split
    all_goals rfl

/-- Claim C7 as stated fails: open is called while the Session holds handle 5 and the
path resolver fails; the Session slot is empty afterwards, handle 5 having been closed. -/
theorem failed_resolution_discards_session :
    (open_resolved (scripted none 0 9 0 none 0 0) "SYSTEM" ⟨5, 0, []⟩).1 = none ∧
    do_hivex_open realConsts (scripted none 0 9 0 none 0 0) 0 "SYSTEM" 0 0 0 ⟨5, 0, []⟩ =
      (-1, ⟨0, 12, [Event.hivex_close 5, Event.sysroot_path "SYSTEM",
        Event.reply_with_perror "malloc" 12]⟩) ∧
    (do_hivex_open realConsts (scripted none 0 9 0 none 0 0) 0 "SYSTEM" 0 0 0
      ⟨5, 0, []⟩).2.h ≠ (⟨5, 0, []⟩ : State).h := by
  decide

/-- Claim C7, amended. When open fails because the path resolver gives no path, it
returns -1 with one "malloc" error reply and the Session slot is empty afterwards: it is
the same as before only if it was empty before, and a handle held before has been closed
through the engine. When node-children or node-values fails because one of its two local
allocations fails, it returns NULL with one "malloc" error reply and the Session slot is
the same as before. Every operation other than open and close leaves the Session slot as
it was, whatever its outcome. -/
theorem resource_error_session_effect (C : Consts) (E : Env) (s : State) :
    (∀ (m : Nat) (f : String) (v d w : Int), (open_resolved E f s).1 = none →
      (do_hivex_open C E m f v d w s).1 = -1 ∧
      (do_hivex_open C E m f v d w s).2.h = 0 ∧
      ((do_hivex_open C E m f v d w s).2.h = s.h ↔ s.h = 0) ∧
      engine_calls (do_hivex_open C E m f v d w s).2.trace =
        engine_calls s.trace ++ (if s.h = 0 then [] else [Event.hivex_close s.h]) ∧
      replies (do_hivex_open C E m f v d w s).2.trace =
        replies s.trace ++ [Event.reply_with_perror "malloc" (open_resolved E f s).2]) ∧
    (∀ (nodeh : Int) (pre post : List Nat) (z : Nat), s.h ≠ 0 → z % 2 ^ 64 = 0 →
      (∀ v ∈ pre, v % 2 ^ 64 ≠ 0) →
      ((E.hivex_node_children s.trace s.errno s.h (toUInt64 nodeh)).1 =
          some (pre ++ z :: post) →
        ((malloc E C.sizeof_node_list
            (call s (Event.hivex_node_children s.h (toUInt64 nodeh))
              (E.hivex_node_children s.trace s.errno s.h (toUInt64 nodeh)).2)).1 = 0 ∨
          (malloc E (pre.length * C.sizeof_node % 2 ^ 64)
            (malloc E C.sizeof_node_list
              (call s (Event.hivex_node_children s.h (toUInt64 nodeh))
                (E.hivex_node_children s.trace s.errno s.h (toUInt64 nodeh)).2)).2).1 = 0) →
        ∃ s' e, do_hivex_node_children C E nodeh s = some (none, s') ∧ s'.h = s.h ∧
          replies s'.trace = replies s.trace ++ [Event.reply_with_perror "malloc" e]) ∧
      ((E.hivex_node_values s.trace s.errno s.h (toUInt64 nodeh)).1 =
          some (pre ++ z :: post) →
        ((malloc E C.sizeof_value_list
            (call s (Event.hivex_node_values s.h (toUInt64 nodeh))
              (E.hivex_node_values s.trace s.errno s.h (toUInt64 nodeh)).2)).1 = 0 ∨
          (malloc E (pre.length * C.sizeof_value % 2 ^ 64)
            (malloc E C.sizeof_value_list
              (call s (Event.hivex_node_values s.h (toUInt64 nodeh))
                (E.hivex_node_values s.trace s.errno s.h (toUInt64 nodeh)).2)).2).1 = 0) →
        ∃ s' e, do_hivex_node_values C E nodeh s = some (none, s') ∧ s'.h = s.h ∧
          replies s'.trace = replies s.trace ++ [Event.reply_with_perror "malloc" e])) ∧
    (∀ (op : Op) (x : Ret × State), op.gated = true → op ≠ Op.hivex_close →
      dispatch C E op s = some x → x.2.h = s.h) := by
  refine ⟨?_, ?_, fun op x hg hc hx => dispatch_frame C E op s x hg hc hx⟩
  · intro m f v d w hp
    rw [do_hivex_open_no_path C E m f v d w s hp]
    have h0 := open_release_h E s
    refine ⟨rfl, h0, ?_, ?_, ?_⟩
    · show (open_release E s).h = s.h ↔ s.h = 0
      rw [h0]
      exact ⟨fun h => h.symm, fun h => h.symm⟩
    · show engine_calls ((open_release E s).trace ++ [Event.sysroot_path f] ++ _) = _
      rw [open_release_trace]
      by_cases hs : s.h = 0
      · simp [hs, engine_calls, List.filter_cons, Event.is_engine_call]
      · simp [hs, engine_calls, List.filter_cons, Event.is_engine_call]
    · show replies ((open_release E s).trace ++ [Event.sysroot_path f] ++ _) = _
      rw [open_release_trace]
      by_cases hs : s.h = 0
      · simp [hs, replies, List.filter_cons, Event.is_reply]
      · simp [hs, replies, List.filter_cons, Event.is_reply]
  · intro nodeh pre post z hopen hz hpre
    exact ⟨fun hr hm => do_hivex_node_children_alloc_fails C E nodeh s pre post z hopen hz
        hpre hr hm,
      fun hr hm => do_hivex_node_values_alloc_fails C E nodeh s pre post z hopen hz hpre
        hr hm⟩

/-- Claim C7, amended, where the allocator fails under node-children: the Session still
holds handle 7. -/
theorem resource_error_session_effect_witness :
    do_hivex_node_children realConsts
        (scripted (some "/sysroot/SYSTEM") 0 7 32 (some [32, 64, 0]) 0 0) 32 ⟨7, 0, []⟩ =
      some (none, ⟨7, 12, [Event.hivex_node_children 7 32, Event.malloc 16 0,
        Event.reply_with_perror "malloc" 12, Event.free_array [32, 64, 0]]⟩) ∧
    ∃ s' e, do_hivex_node_children realConsts
        (scripted (some "/sysroot/SYSTEM") 0 7 32 (some [32, 64, 0]) 0 0) 32 ⟨7, 0, []⟩ =
        some (none, s') ∧ s'.h = 7 ∧
      replies s'.trace = replies [] ++ [Event.reply_with_perror "malloc" e] :=
  ⟨by decide,
    ((resource_error_session_effect realConsts
      (scripted (some "/sysroot/SYSTEM") 0 7 32 (some [32, 64, 0]) 0 0)
      ⟨7, 0, []⟩).2.1 32 [32, 64] [] 0 (by decide) (by decide) (by decide)).1 rfl
      (Or.inl (by decide))⟩

/-- Claim C2 where the engine cannot open the file: the Session that held handle 5 is
gone and root fails with the precondition error. -/
theorem failed_open_leaves_no_session_witness :
    do_hivex_open realConsts (scripted (some "/sysroot/SYSTEM") 4096 0 32 none 0 2) 4
        "SYSTEM" 0 0 1 ⟨5, 0, []⟩ =
      (-1, ⟨0, 2, [Event.hivex_close 5, Event.sysroot_path "SYSTEM",
        Event.hivex_open "/sysroot/SYSTEM" 4 0,
        Event.reply_with_perror "hivex failed to open SYSTEM" 2,
        Event.free_string "/sysroot/SYSTEM"]⟩) ∧
    dispatch realConsts (scripted (some "/sysroot/SYSTEM") 4096 0 32 none 0 2) Op.hivex_root
        (do_hivex_open realConsts (scripted (some "/sysroot/SYSTEM") 4096 0 32 none 0 2) 4
          "SYSTEM" 0 0 1 ⟨5, 0, []⟩).2 =
      some (Op.hivex_root.errcode, NEED_HANDLE Op.hivex_root.func
        (do_hivex_open realConsts (scripted (some "/sysroot/SYSTEM") 4096 0 32 none 0 2) 4
          "SYSTEM" 0 0 1 ⟨5, 0, []⟩).2) :=
  ⟨by decide,
    ((failed_open_leaves_no_session realConsts
      (scripted (some "/sysroot/SYSTEM") 4096 0 32 none 0 2) 4 "SYSTEM" 0 0 1
      ⟨5, 0, []⟩).2.2 (by decide)).2 Op.hivex_root rfl⟩

/-- Claim C3 on the scenario open, root, node-children, open again, close: the history
shows handle 7 closed before the second open, and no handle is open at the end. -/
theorem open_replaces_session_witness :
    run realConsts goodEnv [Op.hivex_open 0 "SYSTEM" 0 0 0, Op.hivex_root,
        Op.hivex_node_children 32, Op.hivex_open 4 "SOFTWARE" 0 0 1, Op.hivex_close]
        ⟨0, 0, []⟩ =
      some ⟨0, 0, [Event.sysroot_path "SYSTEM", Event.hivex_open "/sysroot/SYSTEM" 0 7,
        Event.free_string "/sysroot/SYSTEM", Event.hivex_root 7,
        Event.hivex_node_children 7 32, Event.malloc 16 4096, Event.malloc 16 4096,
        Event.free_array [32, 64, 0], Event.hivex_close 7, Event.sysroot_path "SOFTWARE",
        Event.hivex_open "/sysroot/SYSTEM" 4 7, Event.free_string "/sysroot/SYSTEM",
        Event.hivex_close 7]⟩ ∧
    live_handles [Event.sysroot_path "SYSTEM", Event.hivex_open "/sysroot/SYSTEM" 0 7,
        Event.free_string "/sysroot/SYSTEM", Event.hivex_root 7,
        Event.hivex_node_children 7 32, Event.malloc 16 4096, Event.malloc 16 4096,
        Event.free_array [32, 64, 0], Event.hivex_close 7, Event.sysroot_path "SOFTWARE",
        Event.hivex_open "/sysroot/SYSTEM" 4 7, Event.free_string "/sysroot/SYSTEM",
        Event.hivex_close 7] = slot 0 :=
  ⟨by decide,
    ((open_replaces_session realConsts goodEnv).2.1
      [Op.hivex_open 0 "SYSTEM" 0 0 0, Op.hivex_root, Op.hivex_node_children 32,
        Op.hivex_open 4 "SOFTWARE" 0 0 1, Op.hivex_close] ⟨0, 0, []⟩
      ⟨0, 0, [Event.sysroot_path "SYSTEM", Event.hivex_open "/sysroot/SYSTEM" 0 7,
        Event.free_string "/sysroot/SYSTEM", Event.hivex_root 7,
        Event.hivex_node_children 7 32, Event.malloc 16 4096, Event.malloc 16 4096,
        Event.free_array [32, 64, 0], Event.hivex_close 7, Event.sysroot_path "SOFTWARE",
        Event.hivex_open "/sysroot/SYSTEM" 4 7, Event.free_string "/sysroot/SYSTEM",
        Event.hivex_close 7]⟩ rfl (by decide)).1⟩

end Hivex
